import Mathlib

/-!
# GeNN model registry (`lib/src/utils.cc`): derived parameters and standard models

A shallow embedding of the derived-parameter classes `rulkovdp`, `expDecayDp`
and `pwSTDP`, and of the three functions that fill the global model vectors
(`prepareStandardModels`, `preparePostSynModels`, `prepareWeightUpdateModels`).

Conventions of the embedding.

* `double` is idealised as an arbitrary field `α` (exact arithmetic).  The
  definitions are generic, so they run over `ℚ` and are analysed over `ℝ`.
  The function `exp` from `<cmath>` is passed in as an argument.  Rounding,
  infinities and NaN are outside the model; a division by zero yields 0 as in
  every Lean field, so statements are meaningful where no divisor vanishes.
* `vector<double> pars` is a `List α`.  `pars[i]` on a vector that is too
  short has no defined behaviour in C++; here such a read yields `none`, and
  every strategy function returns an `Option α`.
* `int index` is an `Int`.
* `vector<T>` globals are lists, `push_back` appends at the end, and the
  handle variables (`MAPNEURON`, ...), whose declarations are in a header, are
  natural numbers.
-/

namespace GeNN

/-! ## Derived-parameter strategies -/

/-- The concrete subclasses of the abstract class `dpclass` defined in `utils.cc`. -/
inductive dpclass where
  | rulkovdp
  | expDecayDp
  | pwSTDP
  deriving DecidableEq, Repr

namespace rulkovdp

/-- `rulkovdp::ip0`: `pars[0]*pars[0]*pars[1]`. -/
def ip0 {α : Type} [Field α] (pars : List α) : Option α := do
  let a ← pars[0]?
  let b ← pars[1]?
  pure (a * a * b)

/-- `rulkovdp::ip1`: `pars[0]*pars[2]`. -/
def ip1 {α : Type} [Field α] (pars : List α) : Option α := do
  let a ← pars[0]?
  let c ← pars[2]?
  pure (a * c)

/-- `rulkovdp::ip2`: `pars[0]*pars[1]+pars[0]*pars[2]`. -/
def ip2 {α : Type} [Field α] (pars : List α) : Option α := do
  let a ← pars[0]?
  let b ← pars[1]?
  let c ← pars[2]?
  pure (a * b + a * c)

/-- `rulkovdp::calculateDerivedParameter`: a `switch` on `index` with cases
0, 1, 2, followed by `return -1`. -/
def calculateDerivedParameter {α : Type} [Field α] (index : Int) (pars : List α)
    (_dt : α := 1) : Option α :=
  if index = 0 then ip0 pars
  else if index = 1 then ip1 pars
  else if index = 2 then ip2 pars
  else some (-1)

end rulkovdp

namespace expDecayDp

/-- `expDecayDp::expDecay`: `exp(-dt/pars[0])`. -/
def expDecay {α : Type} [Field α] (exp : α → α) (pars : List α) (dt : α) : Option α := do
  let tau ← pars[0]?
  pure (exp (-dt / tau))

/-- `expDecayDp::calculateDerivedParameter`: a `switch` on `index` with the
single case 0, followed by `return -1`. -/
def calculateDerivedParameter {α : Type} [Field α] (exp : α → α) (index : Int)
    (pars : List α) (dt : α := 1) : Option α :=
  if index = 0 then expDecay exp pars dt
  else some (-1)

end expDecayDp

namespace pwSTDP

/-- `pwSTDP::lim0`: `(1/pars[4] + 1/pars[1]) * pars[0] / (2/pars[1])`. -/
def lim0 {α : Type} [Field α] (pars : List α) (_dt : α) : Option α := do
  let p4 ← pars[4]?
  let p1 ← pars[1]?
  let p0 ← pars[0]?
  pure ((1 / p4 + 1 / p1) * p0 / (2 / p1))

/-- `pwSTDP::lim1`: `-((1/pars[3] + 1/pars[1]) * pars[0] / (2/pars[1]))`. -/
def lim1 {α : Type} [Field α] (pars : List α) (_dt : α) : Option α := do
  let p3 ← pars[3]?
  let p1 ← pars[1]?
  let p0 ← pars[0]?
  pure (-((1 / p3 + 1 / p1) * p0 / (2 / p1)))

/-- `pwSTDP::slope0`: `-2*pars[5]/(pars[1]*pars[0])`. -/
def slope0 {α : Type} [Field α] (pars : List α) (_dt : α) : Option α := do
  let p5 ← pars[5]?
  let p1 ← pars[1]?
  let p0 ← pars[0]?
  pure (-2 * p5 / (p1 * p0))

/-- `pwSTDP::slope1`: `-1*slope0(pars, dt)`. -/
def slope1 {α : Type} [Field α] (pars : List α) (dt : α) : Option α := do
  let s ← slope0 pars dt
  pure (-1 * s)

/-- `pwSTDP::off0`: `pars[5]/pars[4]`. -/
def off0 {α : Type} [Field α] (pars : List α) (_dt : α) : Option α := do
  let p5 ← pars[5]?
  let p4 ← pars[4]?
  pure (p5 / p4)

/-- `pwSTDP::off1`: `pars[5]/pars[1]`. -/
def off1 {α : Type} [Field α] (pars : List α) (_dt : α) : Option α := do
  let p5 ← pars[5]?
  let p1 ← pars[1]?
  pure (p5 / p1)

/-- `pwSTDP::off2`: `pars[5]/pars[3]`. -/
def off2 {α : Type} [Field α] (pars : List α) (_dt : α) : Option α := do
  let p5 ← pars[5]?
  let p3 ← pars[3]?
  pure (p5 / p3)

/-- `pwSTDP::calculateDerivedParameter`: a `switch` on `index` with cases
0 to 6, followed by `return -1`. -/
def calculateDerivedParameter {α : Type} [Field α] (index : Int) (pars : List α)
    (dt : α) : Option α :=
  if index = 0 then lim0 pars dt
  else if index = 1 then lim1 pars dt
  else if index = 2 then slope0 pars dt
  else if index = 3 then slope1 pars dt
  else if index = 4 then off0 pars dt
  else if index = 5 then off1 pars dt
  else if index = 6 then off2 pars dt
  else some (-1)

end pwSTDP

/-- Virtual dispatch of `dpclass::calculateDerivedParameter` on the dynamic
type of the strategy object. -/
def dpclass.calculateDerivedParameter {α : Type} [Field α] (exp : α → α) (d : dpclass)
    (index : Int) (pars : List α) (dt : α) : Option α :=
  match d with
  | .rulkovdp => rulkovdp.calculateDerivedParameter index pars dt
  | .expDecayDp => expDecayDp.calculateDerivedParameter exp index pars dt
  | .pwSTDP => pwSTDP.calculateDerivedParameter index pars dt


/-! ## Model descriptions and the global model vectors -/

/-- A `std::vector`, as the list of its elements in index order. -/
abbrev vector (ρ : Type) := List ρ

/-- `vector::push_back`: append one element at the end. -/
def vector.push_back {ρ : Type} (v : vector ρ) (x : ρ) : vector ρ := v ++ [x]

/-- `vector::clear`: remove all elements. -/
def vector.clear {ρ : Type} (_v : vector ρ) : vector ρ := []

/-- `vector::size`: the number of elements. -/
def vector.size {ρ : Type} (v : vector ρ) : Nat := v.length

/-- The members of class `neuronModel` that `utils.cc` assigns.  The class is
declared in a header; its container and string members start empty, and `dps`
(a `dpclass *`, `none` for `NULL`) has no default here. -/
structure neuronModel where
  simCode : String := ""
  thresholdConditionCode : String := ""
  varNames : vector String := []
  varTypes : vector String := []
  pNames : vector String := []
  dpNames : vector String := []
  extraGlobalNeuronKernelParameters : vector String := []
  extraGlobalNeuronKernelParameterTypes : vector String := []
  dps : Option dpclass
  deriving DecidableEq, Repr

/-- The members of class `postSynModel` that `utils.cc` assigns. -/
structure postSynModel where
  postSyntoCurrent : String := ""
  postSynDecay : String := ""
  varNames : vector String := []
  varTypes : vector String := []
  pNames : vector String := []
  dpNames : vector String := []
  dps : Option dpclass
  deriving DecidableEq, Repr

/-- The members of class `weightUpdateModel` that `utils.cc` assigns. -/
structure weightUpdateModel where
  simCode : String := ""
  simCodeEvnt : String := ""
  simLearnPost : String := ""
  evntThreshold : String := ""
  varNames : vector String := []
  varTypes : vector String := []
  pNames : vector String := []
  dpNames : vector String := []
  dps : Option dpclass
  needPreSt : Bool
  needPostSt : Bool
  deriving DecidableEq, Repr

/-- The globals written by `prepareStandardModels`: the vector `nModels` and
the handle variables. -/
structure NeuronGlobals where
  nModels : vector neuronModel
  MAPNEURON : Nat
  POISSONNEURON : Nat
  TRAUBMILES_FAST : Nat
  TRAUBMILES_ALTERNATIVE : Nat
  TRAUBMILES_SAFE : Nat
  TRAUBMILES : Nat
  TRAUBMILES_PSTEP : Nat
  IZHIKEVICH : Nat
  IZHIKEVICH_V : Nat
  SPIKESOURCE : Nat
  deriving DecidableEq, Repr

/-- The globals written by `preparePostSynModels`. -/
structure PostSynGlobals where
  postSynModels : vector postSynModel
  EXPDECAY : Nat
  IZHIKEVICH_PS : Nat
  deriving DecidableEq, Repr

/-- The globals written by `prepareWeightUpdateModels`. -/
structure WeightUpdateGlobals where
  weightUpdateModels : vector weightUpdateModel
  NSYNAPSE : Nat
  NGRADSYNAPSE : Nat
  LEARN1SYNAPSE : Nat
  deriving DecidableEq, Repr

/-- Modelled from the spec: the header `extra_neurons.h` included at the end of
`prepareStandardModels` is not among the sources.  The spec describes it as the
user-extension point that appends more records; it is the list `extra`. -/
def extra_neurons (nModels : vector neuronModel) (extra : List neuronModel) :
    vector neuronModel :=
  extra.foldl vector.push_back nModels

/-- Modelled from the spec: the header `extra_postsynapses.h` included at the
end of `preparePostSynModels`, a user-extension point that appends the records
`extra`. -/
def extra_postsynapses (postSynModels : vector postSynModel) (extra : List postSynModel) :
    vector postSynModel :=
  extra.foldl vector.push_back postSynModels

/-- Modelled from the spec: the header `extra_weightupdates.h` included at the
end of `prepareWeightUpdateModels`, a user-extension point that appends the
records `extra`. -/
def extra_weightupdates (weightUpdateModels : vector weightUpdateModel)
    (extra : List weightUpdateModel) : vector weightUpdateModel :=
  extra.foldl vector.push_back weightUpdateModels

/-- `prepareStandardModels`.  `nModels0` is the global vector on entry, `dps0`
the value of `n.dps` after the default construction of `n`, and `extra` the
records appended by `extra_neurons.h`. -/
def prepareStandardModels (nModels0 : vector neuronModel) (dps0 : Option dpclass)
    (extra : List neuronModel) : NeuronGlobals := Id.run do
  let mut nModels := nModels0
  let mut n : neuronModel := { dps := dps0 }
  -- Rulkov neurons
  n := { n with varNames := n.varNames.push_back "V" }
  n := { n with varTypes := n.varTypes.push_back "scalar" }
  n := { n with varNames := n.varNames.push_back "preV" }
  n := { n with varTypes := n.varTypes.push_back "scalar" }
  n := { n with pNames := n.pNames.push_back "Vspike" }
  n := { n with pNames := n.pNames.push_back "alpha" }
  n := { n with pNames := n.pNames.push_back "y" }
  n := { n with pNames := n.pNames.push_back "beta" }
  n := { n with dpNames := n.dpNames.push_back "ip0" }
  n := { n with dpNames := n.dpNames.push_back "ip1" }
  n := { n with dpNames := n.dpNames.push_back "ip2" }
  n := { n with simCode := "    if ($(V) <= 0) \x7b\n      $(preV)= $(V);\n      $(V)= $(ip0)/(($(Vspike)) - $(V) - ($(beta))*$(Isyn)) +($(ip1));\n    \x7d\n    else \x7b\n      if (($(V) < $(ip2)) && ($(preV) <= 0)) \x7b\n        $(preV)= $(V);\n        $(V)= $(ip2);\n      \x7d\n      else \x7b\n        $(preV)= $(V);\n        $(V)= -($(Vspike));\n      \x7d\n    \x7d\n" }
  n := { n with thresholdConditionCode := "$(V) >= $(ip2)" }
  n := { n with dps := some dpclass.rulkovdp }
  nModels := nModels.push_back n
  let MAPNEURON := nModels.size - 1
  -- Poisson neurons
  n := { n with varNames := n.varNames.clear }
  n := { n with varTypes := n.varTypes.clear }
  n := { n with varNames := n.varNames.push_back "V" }
  n := { n with varTypes := n.varTypes.push_back "scalar" }
  n := { n with varNames := n.varNames.push_back "seed" }
  n := { n with varTypes := n.varTypes.push_back "uint64_t" }
  n := { n with varNames := n.varNames.push_back "spikeTime" }
  n := { n with varTypes := n.varTypes.push_back "scalar" }
  n := { n with pNames := n.pNames.clear }
  n := { n with pNames := n.pNames.push_back "therate" }
  n := { n with pNames := n.pNames.push_back "trefract" }
  n := { n with pNames := n.pNames.push_back "Vspike" }
  n := { n with pNames := n.pNames.push_back "Vrest" }
  n := { n with dpNames := n.dpNames.clear }
  n := { n with extraGlobalNeuronKernelParameters := n.extraGlobalNeuronKernelParameters.push_back "rates" }
  n := { n with extraGlobalNeuronKernelParameterTypes := n.extraGlobalNeuronKernelParameterTypes.push_back "uint64_t *" }
  n := { n with extraGlobalNeuronKernelParameters := n.extraGlobalNeuronKernelParameters.push_back "offset" }
  n := { n with extraGlobalNeuronKernelParameterTypes := n.extraGlobalNeuronKernelParameterTypes.push_back "unsigned int" }
  n := { n with simCode := "    uint64_t theRnd;\n    if ($(V) > $(Vrest)) \x7b\n      $(V)= $(Vrest);\n    \x7d\n    else \x7b\n      if ($(t) - $(spikeTime) > ($(trefract))) \x7b\n        MYRAND($(seed),theRnd);\n        if (theRnd < *($(rates)+$(offset)+$(id))) \x7b\n\t\t\t          $(V)= $(Vspike);\n          $(spikeTime)= $(t);\n        \x7d\n      \x7d\n    \x7d\n" }
  n := { n with thresholdConditionCode := "$(V) >= $(Vspike)" }
  n := { n with dps := none }
  nModels := nModels.push_back n
  let POISSONNEURON := nModels.size - 1
  -- Traub and Miles HH neurons TRAUBMILES_FAST
  n := { n with varNames := n.varNames.clear }
  n := { n with varTypes := n.varTypes.clear }
  n := { n with extraGlobalNeuronKernelParameters := n.extraGlobalNeuronKernelParameters.clear }
  n := { n with extraGlobalNeuronKernelParameterTypes := n.extraGlobalNeuronKernelParameterTypes.clear }
  n := { n with varNames := n.varNames.push_back "V" }
  n := { n with varTypes := n.varTypes.push_back "scalar" }
  n := { n with varNames := n.varNames.push_back "m" }
  n := { n with varTypes := n.varTypes.push_back "scalar" }
  n := { n with varNames := n.varNames.push_back "h" }
  n := { n with varTypes := n.varTypes.push_back "scalar" }
  n := { n with varNames := n.varNames.push_back "n" }
  n := { n with varTypes := n.varTypes.push_back "scalar" }
  n := { n with pNames := n.pNames.clear }
  n := { n with pNames := n.pNames.push_back "gNa" }
  n := { n with pNames := n.pNames.push_back "ENa" }
  n := { n with pNames := n.pNames.push_back "gK" }
  n := { n with pNames := n.pNames.push_back "EK" }
  n := { n with pNames := n.pNames.push_back "gl" }
  n := { n with pNames := n.pNames.push_back "El" }
  n := { n with pNames := n.pNames.push_back "C" }
  n := { n with dpNames := n.dpNames.clear }
  n := { n with simCode := "   scalar Imem;\n    unsigned int mt;\n    scalar mdt= DT/25.0;\n    for (mt=0; mt < 25; mt++) \x7b\n      Imem= -($(m)*$(m)*$(m)*$(h)*$(gNa)*($(V)-($(ENa)))+\n              $(n)*$(n)*$(n)*$(n)*$(gK)*($(V)-($(EK)))+\n              $(gl)*($(V)-($(El)))-$(Isyn));\n      scalar _a= 0.32*(-52.0-$(V))/(exp((-52.0-$(V))/4.0)-1.0);\n      scalar _b= 0.28*($(V)+25.0)/(exp(($(V)+25.0)/5.0)-1.0);\n      $(m)+= (_a*(1.0-$(m))-_b*$(m))*mdt;\n      _a= 0.128*exp((-48.0-$(V))/18.0);\n      _b= 4.0 / (exp((-25.0-$(V))/5.0)+1.0);\n      $(h)+= (_a*(1.0-$(h))-_b*$(h))*mdt;\n      _a= 0.032*(-50.0-$(V))/(exp((-50.0-$(V))/5.0)-1.0);\n      _b= 0.5*exp((-55.0-$(V))/40.0);\n      $(n)+= (_a*(1.0-$(n))-_b*$(n))*mdt;\n      $(V)+= Imem/$(C)*mdt;\n    \x7d\n" }
  n := { n with thresholdConditionCode := "$(V) > 0.0" }
  n := { n with dps := none }
  nModels := nModels.push_back n
  let TRAUBMILES_FAST := nModels.size - 1
  -- Traub and Miles HH neurons TRAUBMILES_ALTERNATIVE
  n := { n with varNames := n.varNames.clear }
  n := { n with varTypes := n.varTypes.clear }
  n := { n with varNames := n.varNames.push_back "V" }
  n := { n with varTypes := n.varTypes.push_back "scalar" }
  n := { n with varNames := n.varNames.push_back "m" }
  n := { n with varTypes := n.varTypes.push_back "scalar" }
  n := { n with varNames := n.varNames.push_back "h" }
  n := { n with varTypes := n.varTypes.push_back "scalar" }
  n := { n with varNames := n.varNames.push_back "n" }
  n := { n with varTypes := n.varTypes.push_back "scalar" }
  n := { n with pNames := n.pNames.clear }
  n := { n with pNames := n.pNames.push_back "gNa" }
  n := { n with pNames := n.pNames.push_back "ENa" }
  n := { n with pNames := n.pNames.push_back "gK" }
  n := { n with pNames := n.pNames.push_back "EK" }
  n := { n with pNames := n.pNames.push_back "gl" }
  n := { n with pNames := n.pNames.push_back "El" }
  n := { n with pNames := n.pNames.push_back "C" }
  n := { n with dpNames := n.dpNames.clear }
  n := { n with simCode := "   scalar Imem;\n    unsigned int mt;\n    scalar mdt= DT/25.0;\n    for (mt=0; mt < 25; mt++) \x7b\n      Imem= -($(m)*$(m)*$(m)*$(h)*$(gNa)*($(V)-($(ENa)))+\n              $(n)*$(n)*$(n)*$(n)*$(gK)*($(V)-($(EK)))+\n              $(gl)*($(V)-($(El)))-$(Isyn));\n      scalar volatile _tmp= abs(exp((-52.0-$(V))/4.0)-1.0);\n      scalar _a= 0.32*abs(-52.0-$(V))/(_tmp+SCALAR_MIN);\n      _tmp= abs(exp(($(V)+25.0)/5.0)-1.0);\n      scalar _b= 0.28*abs($(V)+25.0)/(_tmp+SCALAR_MIN);\n      $(m)+= (_a*(1.0-$(m))-_b*$(m))*mdt;\n      _a= 0.128*exp((-48.0-$(V))/18.0);\n      _b= 4.0 / (exp((-25.0-$(V))/5.0)+1.0);\n      $(h)+= (_a*(1.0-$(h))-_b*$(h))*mdt;\n      _tmp= abs(exp((-50.0-$(V))/5.0)-1.0);\n      _a= 0.032*abs(-50.0-$(V))/(_tmp+SCALAR_MIN); \n      _b= 0.5*exp((-55.0-$(V))/40.0);\n      $(n)+= (_a*(1.0-$(n))-_b*$(n))*mdt;\n      $(V)+= Imem/$(C)*mdt;\n    \x7d\n" }
  n := { n with thresholdConditionCode := "$(V) > 0" }
  n := { n with dps := none }
  nModels := nModels.push_back n
  let TRAUBMILES_ALTERNATIVE := nModels.size - 1
  -- Traub and Miles HH neurons TRAUBMILES_SAFE
  n := { n with varNames := n.varNames.clear }
  n := { n with varTypes := n.varTypes.clear }
  n := { n with varNames := n.varNames.push_back "V" }
  n := { n with varTypes := n.varTypes.push_back "scalar" }
  n := { n with varNames := n.varNames.push_back "m" }
  n := { n with varTypes := n.varTypes.push_back "scalar" }
  n := { n with varNames := n.varNames.push_back "h" }
  n := { n with varTypes := n.varTypes.push_back "scalar" }
  n := { n with varNames := n.varNames.push_back "n" }
  n := { n with varTypes := n.varTypes.push_back "scalar" }
  n := { n with pNames := n.pNames.clear }
  n := { n with pNames := n.pNames.push_back "gNa" }
  n := { n with pNames := n.pNames.push_back "ENa" }
  n := { n with pNames := n.pNames.push_back "gK" }
  n := { n with pNames := n.pNames.push_back "EK" }
  n := { n with pNames := n.pNames.push_back "gl" }
  n := { n with pNames := n.pNames.push_back "El" }
  n := { n with pNames := n.pNames.push_back "C" }
  n := { n with dpNames := n.dpNames.clear }
  n := { n with simCode := "   scalar Imem;\n    unsigned int mt;\n    scalar mdt= DT/25.0;\n    for (mt=0; mt < 25; mt++) \x7b\n      Imem= -($(m)*$(m)*$(m)*$(h)*$(gNa)*($(V)-($(ENa)))+\n              $(n)*$(n)*$(n)*$(n)*$(gK)*($(V)-($(EK)))+\n              $(gl)*($(V)-($(El)))-$(Isyn));\n      scalar _a;\n      if (lV == -52.0) _a= 1.28;\n      else _a= 0.32*(-52.0-$(V))/(exp((-52.0-$(V))/4.0)-1.0);\n      scalar _b;\n      if (lV == -25.0) _b= 1.4;\n      else _b= 0.28*($(V)+25.0)/(exp(($(V)+25.0)/5.0)-1.0);\n      $(m)+= (_a*(1.0-$(m))-_b*$(m))*mdt;\n      _a= 0.128*exp((-48.0-$(V))/18.0);\n      _b= 4.0 / (exp((-25.0-$(V))/5.0)+1.0);\n      $(h)+= (_a*(1.0-$(h))-_b*$(h))*mdt;\n      if (lV == -50.0) _a= 0.16;\n      else _a= 0.032*(-50.0-$(V))/(exp((-50.0-$(V))/5.0)-1.0);\n      _b= 0.5*exp((-55.0-$(V))/40.0);\n      $(n)+= (_a*(1.0-$(n))-_b*$(n))*mdt;\n      $(V)+= Imem/$(C)*mdt;\n    \x7d\n" }
  n := { n with thresholdConditionCode := "$(V) > 0.0" }
  n := { n with dps := none }
  nModels := nModels.push_back n
  let TRAUBMILES_SAFE := nModels.size - 1
  let TRAUBMILES := TRAUBMILES_SAFE
  -- Traub and Miles HH neurons TRAUBMILES_PSTEP
  n := { n with varNames := n.varNames.clear }
  n := { n with varTypes := n.varTypes.clear }
  n := { n with varNames := n.varNames.push_back "V" }
  n := { n with varTypes := n.varTypes.push_back "scalar" }
  n := { n with varNames := n.varNames.push_back "m" }
  n := { n with varTypes := n.varTypes.push_back "scalar" }
  n := { n with varNames := n.varNames.push_back "h" }
  n := { n with varTypes := n.varTypes.push_back "scalar" }
  n := { n with varNames := n.varNames.push_back "n" }
  n := { n with varTypes := n.varTypes.push_back "scalar" }
  n := { n with pNames := n.pNames.clear }
  n := { n with pNames := n.pNames.push_back "gNa" }
  n := { n with pNames := n.pNames.push_back "ENa" }
  n := { n with pNames := n.pNames.push_back "gK" }
  n := { n with pNames := n.pNames.push_back "EK" }
  n := { n with pNames := n.pNames.push_back "gl" }
  n := { n with pNames := n.pNames.push_back "El" }
  n := { n with pNames := n.pNames.push_back "C" }
  n := { n with pNames := n.pNames.push_back "ntimes" }
  n := { n with dpNames := n.dpNames.clear }
  n := { n with simCode := "   scalar Imem;\n    unsigned int mt;\n    scalar mdt= DT/scalar($(ntimes));\n    for (mt=0; mt < $(ntimes); mt++) \x7b\n      Imem= -($(m)*$(m)*$(m)*$(h)*$(gNa)*($(V)-($(ENa)))+\n              $(n)*$(n)*$(n)*$(n)*$(gK)*($(V)-($(EK)))+\n              $(gl)*($(V)-($(El)))-$(Isyn));\n      scalar _a;\n      if (lV == -52.0) _a= 1.28;\n      else _a= 0.32*(-52.0-$(V))/(exp((-52.0-$(V))/4.0)-1.0);\n      scalar _b;\n      if (lV == -25.0) _b= 1.4;\n      else _b= 0.28*($(V)+25.0)/(exp(($(V)+25.0)/5.0)-1.0);\n      $(m)+= (_a*(1.0-$(m))-_b*$(m))*mdt;\n      _a= 0.128*exp((-48.0-$(V))/18.0);\n      _b= 4.0 / (exp((-25.0-$(V))/5.0)+1.0);\n      $(h)+= (_a*(1.0-$(h))-_b*$(h))*mdt;\n      if (lV == -50.0) _a= 0.16;\n      else _a= 0.032*(-50.0-$(V))/(exp((-50.0-$(V))/5.0)-1.0);\n      _b= 0.5*exp((-55.0-$(V))/40.0);\n      $(n)+= (_a*(1.0-$(n))-_b*$(n))*mdt;\n      $(V)+= Imem/$(C)*mdt;\n    \x7d\n" }
  n := { n with thresholdConditionCode := "$(V) > 0.0" }
  n := { n with dps := none }
  nModels := nModels.push_back n
  let TRAUBMILES_PSTEP := nModels.size - 1
  -- Izhikevich neurons
  n := { n with varNames := n.varNames.clear }
  n := { n with varTypes := n.varTypes.clear }
  n := { n with varNames := n.varNames.push_back "V" }
  n := { n with varTypes := n.varTypes.push_back "scalar" }
  n := { n with varNames := n.varNames.push_back "U" }
  n := { n with varTypes := n.varTypes.push_back "scalar" }
  n := { n with pNames := n.pNames.clear }
  n := { n with pNames := n.pNames.push_back "a" }
  n := { n with pNames := n.pNames.push_back "b" }
  n := { n with pNames := n.pNames.push_back "c" }
  n := { n with pNames := n.pNames.push_back "d" }
  n := { n with dpNames := n.dpNames.clear }
  n := { n with simCode := "    if ($(V) >= 30.0)\x7b\n      $(V)=$(c);\n\t\t  $(U)+=$(d);\n    \x7d \n    $(V)+=0.5*(0.04*$(V)*$(V)+5.0*$(V)+140.0-$(U)+$(Isyn))*DT; //at two times for numerical stability\n    $(V)+=0.5*(0.04*$(V)*$(V)+5.0*$(V)+140.0-$(U)+$(Isyn))*DT;\n    $(U)+=$(a)*($(b)*$(V)-$(U))*DT;\n   //if ($(V) > 30.0)\x7b   //keep this only for visualisation -- not really necessaary otherwise \n\t   //  $(V)=30.0; \n   //\x7d\n" }
  n := { n with thresholdConditionCode := "$(V) >= 29.99" }
  nModels := nModels.push_back n
  let IZHIKEVICH := nModels.size - 1
  -- Izhikevich neurons with variable parameters
  n := { n with varNames := n.varNames.clear }
  n := { n with varTypes := n.varTypes.clear }
  n := { n with varNames := n.varNames.push_back "V" }
  n := { n with varTypes := n.varTypes.push_back "scalar" }
  n := { n with varNames := n.varNames.push_back "U" }
  n := { n with varTypes := n.varTypes.push_back "scalar" }
  n := { n with varNames := n.varNames.push_back "a" }
  n := { n with varTypes := n.varTypes.push_back "scalar" }
  n := { n with varNames := n.varNames.push_back "b" }
  n := { n with varTypes := n.varTypes.push_back "scalar" }
  n := { n with varNames := n.varNames.push_back "c" }
  n := { n with varTypes := n.varTypes.push_back "scalar" }
  n := { n with varNames := n.varNames.push_back "d" }
  n := { n with varTypes := n.varTypes.push_back "scalar" }
  n := { n with pNames := n.pNames.clear }
  n := { n with dpNames := n.dpNames.clear }
  n := { n with simCode := "    if ($(V) >= 30.0)\x7b\n      $(V)=$(c);\n\t\t  $(U)+=$(d);\n    \x7d \n    $(V)+=0.5*(0.04*$(V)*$(V)+5.0*$(V)+140.0-$(U)+$(Isyn))*DT; //at two times for numerical stability\n    $(V)+=0.5*(0.04*$(V)*$(V)+5.0*$(V)+140.0-$(U)+$(Isyn))*DT;\n    $(U)+=$(a)*($(b)*$(V)-$(U))*DT;\n    //if ($(V) > 30.0)\x7b      //keep this only for visualisation -- not really necessaary otherwise \n    //  $(V)=30.0; \n    //\x7d\n" }
  n := { n with thresholdConditionCode := "$(V) > 29.99" }
  n := { n with dps := none }
  nModels := nModels.push_back n
  let IZHIKEVICH_V := nModels.size - 1
  -- Spike Source
  n := { n with varNames := n.varNames.clear }
  n := { n with varTypes := n.varTypes.clear }
  n := { n with pNames := n.pNames.clear }
  n := { n with dpNames := n.dpNames.clear }
  n := { n with simCode := "" }
  n := { n with thresholdConditionCode := "0" }
  n := { n with dps := none }
  nModels := nModels.push_back n
  let SPIKESOURCE := nModels.size - 1
  -- the records of extra_neurons.h
  nModels := extra_neurons nModels extra
  return { nModels, MAPNEURON, POISSONNEURON, TRAUBMILES_FAST, TRAUBMILES_ALTERNATIVE,
           TRAUBMILES_SAFE, TRAUBMILES, TRAUBMILES_PSTEP, IZHIKEVICH, IZHIKEVICH_V,
           SPIKESOURCE }

/-- `preparePostSynModels`.  `postSynModels0` is the global vector on entry,
`dps0` the value of `ps.dps` after the default construction of `ps`, and
`extra` the records appended by `extra_postsynapses.h`. -/
def preparePostSynModels (postSynModels0 : vector postSynModel) (dps0 : Option dpclass)
    (extra : List postSynModel) : PostSynGlobals := Id.run do
  let mut postSynModels := postSynModels0
  let mut ps : postSynModel := { dps := dps0 }
  -- 0: Exponential decay
  ps := { ps with varNames := ps.varNames.clear }
  ps := { ps with varTypes := ps.varTypes.clear }
  ps := { ps with pNames := ps.pNames.clear }
  ps := { ps with dpNames := ps.dpNames.clear }
  ps := { ps with pNames := ps.pNames.push_back "tau" }
  ps := { ps with pNames := ps.pNames.push_back "E" }
  ps := { ps with dpNames := ps.dpNames.push_back "expDecay" }
  ps := { ps with postSynDecay := "$(inSyn)*=$(expDecay);\n" }
  ps := { ps with postSyntoCurrent := "$(inSyn)*($(E)-$(V))" }
  ps := { ps with dps := some dpclass.expDecayDp }
  postSynModels := postSynModels.push_back ps
  let EXPDECAY := postSynModels.size - 1
  -- 1: IZHIKEVICH MODEL (NO POSTSYN RULE)
  ps := { ps with varNames := ps.varNames.clear }
  ps := { ps with varTypes := ps.varTypes.clear }
  ps := { ps with pNames := ps.pNames.clear }
  ps := { ps with dpNames := ps.dpNames.clear }
  ps := { ps with postSynDecay := "" }
  ps := { ps with postSyntoCurrent := "$(inSyn); $(inSyn)= 0" }
  postSynModels := postSynModels.push_back ps
  let IZHIKEVICH_PS := postSynModels.size - 1
  -- the records of extra_postsynapses.h
  postSynModels := extra_postsynapses postSynModels extra
  return { postSynModels, EXPDECAY, IZHIKEVICH_PS }

/-- `prepareWeightUpdateModels`.  `weightUpdateModels0` is the global vector
on entry; `dps0`, `needPreSt0` and `needPostSt0` are the values of the members
`dps`, `needPreSt` and `needPostSt` after the default construction of `wuN`,
`wuG` and `wuL`; `extra` holds the records appended by `extra_weightupdates.h`. -/
def prepareWeightUpdateModels (weightUpdateModels0 : vector weightUpdateModel)
    (dps0 : Option dpclass) (needPreSt0 needPostSt0 : Bool)
    (extra : List weightUpdateModel) : WeightUpdateGlobals := Id.run do
  let mut weightUpdateModels := weightUpdateModels0
  let mut wuN : weightUpdateModel :=
    { dps := dps0, needPreSt := needPreSt0, needPostSt := needPostSt0 }
  let mut wuG : weightUpdateModel :=
    { dps := dps0, needPreSt := needPreSt0, needPostSt := needPostSt0 }
  let mut wuL : weightUpdateModel :=
    { dps := dps0, needPreSt := needPreSt0, needPostSt := needPostSt0 }
  -- NSYNAPSE weightupdate model
  wuN := { wuN with varNames := wuN.varNames.clear }
  wuN := { wuN with varTypes := wuN.varTypes.clear }
  wuN := { wuN with varNames := wuN.varNames.push_back "g" }
  wuN := { wuN with varTypes := wuN.varTypes.push_back "scalar" }
  wuN := { wuN with pNames := wuN.pNames.clear }
  wuN := { wuN with dpNames := wuN.dpNames.clear }
  wuN := { wuN with simCode := "  $(addtoinSyn) = $(g);\n  $(updatelinsyn);\n" }
  weightUpdateModels := weightUpdateModels.push_back wuN
  let NSYNAPSE := weightUpdateModels.size - 1
  -- NGRADSYNAPSE weightupdate model
  wuG := { wuG with varNames := wuG.varNames.clear }
  wuG := { wuG with varTypes := wuG.varTypes.clear }
  wuG := { wuG with varNames := wuG.varNames.push_back "g" }
  wuG := { wuG with varTypes := wuG.varTypes.push_back "scalar" }
  wuG := { wuG with pNames := wuG.pNames.clear }
  wuG := { wuG with pNames := wuG.pNames.push_back "Epre" }
  wuG := { wuG with pNames := wuG.pNames.push_back "Vslope" }
  wuG := { wuG with dpNames := wuG.dpNames.clear }
  wuG := { wuG with simCodeEvnt := "$(addtoinSyn) = $(g) * tanh(($(V_pre) - $(Epre)) / $(Vslope))* DT;\n    if ($(addtoinSyn) < 0) $(addtoinSyn) = 0.0;\n    $(updatelinsyn);\n" }
  wuG := { wuG with evntThreshold := "$(V_pre) > $(Epre)" }
  weightUpdateModels := weightUpdateModels.push_back wuG
  let NGRADSYNAPSE := weightUpdateModels.size - 1
  -- LEARN1SYNAPSE weightupdate model
  wuL := { wuL with varNames := wuL.varNames.clear }
  wuL := { wuL with varTypes := wuL.varTypes.clear }
  wuL := { wuL with varNames := wuL.varNames.push_back "g" }
  wuL := { wuL with varTypes := wuL.varTypes.push_back "scalar" }
  wuL := { wuL with varNames := wuL.varNames.push_back "gRaw" }
  wuL := { wuL with varTypes := wuL.varTypes.push_back "scalar" }
  wuL := { wuL with pNames := wuL.pNames.clear }
  wuL := { wuL with pNames := wuL.pNames.push_back "tLrn" }
  wuL := { wuL with pNames := wuL.pNames.push_back "tChng" }
  wuL := { wuL with pNames := wuL.pNames.push_back "tDecay" }
  wuL := { wuL with pNames := wuL.pNames.push_back "tPunish10" }
  wuL := { wuL with pNames := wuL.pNames.push_back "tPunish01" }
  wuL := { wuL with pNames := wuL.pNames.push_back "gMax" }
  wuL := { wuL with pNames := wuL.pNames.push_back "gMid" }
  wuL := { wuL with pNames := wuL.pNames.push_back "gSlope" }
  wuL := { wuL with pNames := wuL.pNames.push_back "tauShift" }
  wuL := { wuL with pNames := wuL.pNames.push_back "gSyn0" }
  wuL := { wuL with dpNames := wuL.dpNames.clear }
  wuL := { wuL with dpNames := wuL.dpNames.push_back "lim0" }
  wuL := { wuL with dpNames := wuL.dpNames.push_back "lim1" }
  wuL := { wuL with dpNames := wuL.dpNames.push_back "slope0" }
  wuL := { wuL with dpNames := wuL.dpNames.push_back "slope1" }
  wuL := { wuL with dpNames := wuL.dpNames.push_back "off0" }
  wuL := { wuL with dpNames := wuL.dpNames.push_back "off1" }
  wuL := { wuL with dpNames := wuL.dpNames.push_back "off2" }
  wuL := { wuL with simCode := "$(addtoinSyn) = $(g);\n  $(updatelinsyn); \n\t\t\t\t  scalar dt = $(sT_post) - $(t) - ($(tauShift)); \n\t  scalar dg = 0;\n\t\t\t\t  if (dt > $(lim0))  \n\t\t\t\t      dg = -($(off0)) ; \n\t\t\t  else if (dt > 0)  \n\t\t\t      dg = $(slope0) * dt + ($(off1)); \n  else if (dt > $(lim1))  \n\t\t\t      dg = $(slope1) * dt + ($(off1)); \n  else dg = - ($(off2)) ; \n  $(gRaw) += dg; \n  $(g)=$(gMax)/2 *(tanh($(gSlope)*($(gRaw) - ($(gMid))))+1); \n" }
  wuL := { wuL with dps := some dpclass.pwSTDP }
  wuL := { wuL with simLearnPost := "scalar dt = $(t) - ($(sT_pre)) - ($(tauShift)); \n  scalar dg =0; \n  if (dt > $(lim0))  \n      dg = -($(off0)) ; \n   else if (dt > 0)  \n      dg = $(slope0) * dt + ($(off1)); \n  else if (dt > $(lim1))  \n      dg = $(slope1) * dt + ($(off1)); \n  else dg = -($(off2)) ; \n  $(gRaw) += dg; \n  $(g)=$(gMax)/2.0 *(tanh($(gSlope)*($(gRaw) - ($(gMid))))+1); \n" }
  wuL := { wuL with needPreSt := true }
  wuL := { wuL with needPostSt := true }
  weightUpdateModels := weightUpdateModels.push_back wuL
  let LEARN1SYNAPSE := weightUpdateModels.size - 1
  -- the records of extra_weightupdates.h
  weightUpdateModels := extra_weightupdates weightUpdateModels extra
  return { weightUpdateModels, NSYNAPSE, NGRADSYNAPSE, LEARN1SYNAPSE }

/-- Whether the characters `pat` occur contiguously somewhere in `code`. -/
def occursInChars (pat : List Char) : List Char → Bool
  | [] => pat.isEmpty
  | c :: cs => pat.isPrefixOf (c :: cs) || occursInChars pat cs

/-- Whether the text `pat` occurs somewhere in the code string `code`. -/
def occursIn (pat code : String) : Bool :=
  occursInChars pat.data code.data

/-! ## Catalog lookup -/

/-- The failure of a lookup in a catalog. -/
inductive CatalogError where
  | unknownHandle
  deriving DecidableEq, Repr

/-- Modelled from the spec: the lookup `get(handle) -> record` of a catalog,
which "fails on unknown handle".  `utils.cc` defines the three global vectors
and fills them; no code that looks a handle up is among the sources. -/
def ModelCatalog.get {ρ : Type} (catalog : vector ρ) (handle : Nat) :
    Except CatalogError ρ :=
  match catalog[handle]? with
  | some r => .ok r
  | none => .error .unknownHandle

/-! ## Semantics of the code fragments

The code strings of the records are C fragments in which `$(x)` stands for
the value of the variable, parameter or derived parameter `x` of the record,
or for a symbol of the simulation context (`$(Isyn)`, `$(inSyn)`, `DT`, ...).
Each fragment analysed below is rendered as a Lean function of these values:
assignments update the state in program order, `scalar` is idealised like
`double`, and `lV` is read as the variable `$(V)`. -/

/-- `for (mt=0; cond; mt++) body` with the `unsigned int` counter `mt` (32
bits).  `fuel` bounds the number of iterations that are run: the result is
`none` when the loop has not been left after `fuel` iterations. -/
def forLoop {σ : Type} (cond : Nat → Bool) (body : σ → σ) : Nat → Nat → σ → Option σ
  | 0, mt, s => if cond mt then none else some s
  | fuel + 1, mt, s =>
    if cond mt then forLoop cond body fuel ((mt + 1) % 2 ^ 32) (body s) else some s

namespace MAPNEURON

/-- The variables `V`, `preV` of the Rulkov map neuron. -/
structure State (α : Type) where
  V : α
  preV : α
  deriving DecidableEq, Repr

/-- The threshold condition `$(V) >= $(ip2)`. -/
def thresholdConditionCode {α : Type} [LinearOrderedField α] (V ip2 : α) : Bool :=
  decide (V ≥ ip2)

/-- The sim code of the Rulkov map neuron:
`if ($(V) <= 0) { $(preV)= $(V); $(V)= $(ip0)/(($(Vspike)) - $(V) - ($(beta))*$(Isyn)) +($(ip1)); }`
`else { if (($(V) < $(ip2)) && ($(preV) <= 0)) { $(preV)= $(V); $(V)= $(ip2); }`
`else { $(preV)= $(V); $(V)= -($(Vspike)); } }`.
The operator `&&` evaluates its right operand only when the left one holds. -/
def simCode {α : Type} [LinearOrderedField α] (ip0 ip1 ip2 Vspike beta Isyn : α)
    (s0 : State α) : State α := Id.run do
  let mut s := s0
  if s.V ≤ 0 then
    s := { s with preV := s.V }
    s := { s with V := ip0 / (Vspike - s.V - beta * Isyn) + ip1 }
  else
    if (if s.V < ip2 then decide (s.preV ≤ 0) else false) then
      s := { s with preV := s.V }
      s := { s with V := ip2 }
    else
      s := { s with preV := s.V }
      s := { s with V := -Vspike }
  return s

end MAPNEURON

namespace IZHIKEVICH

/-- The threshold condition `$(V) >= 29.99`. -/
def thresholdConditionCode {α : Type} [LinearOrderedField α] (V : α) : Bool :=
  decide (V ≥ 29.99)

end IZHIKEVICH

namespace IZHIKEVICH_V

/-- The threshold condition `$(V) > 29.99`. -/
def thresholdConditionCode {α : Type} [LinearOrderedField α] (V : α) : Bool :=
  decide (V > 29.99)

end IZHIKEVICH_V

/-- The variables `V`, `m`, `h`, `n` of the Traub-Miles neurons. -/
structure TraubMilesState (α : Type) where
  V : α
  m : α
  h : α
  n : α
  deriving DecidableEq, Repr

/-- The values of the parameters `gNa, ENa, gK, EK, gl, El, C` shared by the
Traub-Miles neurons. -/
structure TraubMilesParams (α : Type) where
  gNa : α
  ENa : α
  gK : α
  EK : α
  gl : α
  El : α
  C : α
  deriving DecidableEq, Repr

namespace TRAUBMILES_SAFE

/-- The threshold condition `$(V) > 0.0`. -/
def thresholdConditionCode {α : Type} [LinearOrderedField α] (V : α) : Bool :=
  decide (V > 0.0)

/-- The value of `_a` after
`if (lV == -52.0) _a= 1.28; else _a= 0.32*(-52.0-$(V))/(exp((-52.0-$(V))/4.0)-1.0);`. -/
def alpha_m {α : Type} [LinearOrderedField α] (exp : α → α) (V : α) : α :=
  if V = -52.0 then 1.28 else 0.32 * (-52.0 - V) / (exp ((-52.0 - V) / 4.0) - 1.0)

/-- The value of `_b` after
`if (lV == -25.0) _b= 1.4; else _b= 0.28*($(V)+25.0)/(exp(($(V)+25.0)/5.0)-1.0);`. -/
def beta_m {α : Type} [LinearOrderedField α] (exp : α → α) (V : α) : α :=
  if V = -25.0 then 1.4 else 0.28 * (V + 25.0) / (exp ((V + 25.0) / 5.0) - 1.0)

/-- The value of `_a` after
`if (lV == -50.0) _a= 0.16; else _a= 0.032*(-50.0-$(V))/(exp((-50.0-$(V))/5.0)-1.0);`. -/
def alpha_n {α : Type} [LinearOrderedField α] (exp : α → α) (V : α) : α :=
  if V = -50.0 then 0.16 else 0.032 * (-50.0 - V) / (exp ((-50.0 - V) / 5.0) - 1.0)

/-- The body of the `for` loop of the sim code of `TRAUBMILES_SAFE`. -/
def body {α : Type} [LinearOrderedField α] (exp : α → α) (p : TraubMilesParams α)
    (Isyn mdt : α) (s0 : TraubMilesState α) : TraubMilesState α := Id.run do
  let mut s := s0
  let Imem := -(s.m * s.m * s.m * s.h * p.gNa * (s.V - p.ENa) +
                s.n * s.n * s.n * s.n * p.gK * (s.V - p.EK) +
                p.gl * (s.V - p.El) - Isyn)
  let mut _a := alpha_m exp s.V
  let mut _b := beta_m exp s.V
  s := { s with m := s.m + (_a * (1.0 - s.m) - _b * s.m) * mdt }
  _a := 0.128 * exp ((-48.0 - s.V) / 18.0)
  _b := 4.0 / (exp ((-25.0 - s.V) / 5.0) + 1.0)
  s := { s with h := s.h + (_a * (1.0 - s.h) - _b * s.h) * mdt }
  _a := alpha_n exp s.V
  _b := 0.5 * exp ((-55.0 - s.V) / 40.0)
  s := { s with n := s.n + (_a * (1.0 - s.n) - _b * s.n) * mdt }
  s := { s with V := s.V + Imem / p.C * mdt }
  return s

/-- The sim code of `TRAUBMILES_SAFE`:
`scalar mdt= DT/25.0; for (mt=0; mt < 25; mt++) { ... }`. -/
def simCode {α : Type} [LinearOrderedField α] (exp : α → α) (p : TraubMilesParams α)
    (Isyn DT : α) (fuel : Nat) (s : TraubMilesState α) : Option (TraubMilesState α) :=
  let mdt := DT / 25.0
  forLoop (fun mt => decide (mt < 25)) (body exp p Isyn mdt) fuel 0 s

end TRAUBMILES_SAFE

namespace TRAUBMILES_PSTEP

/-- The threshold condition `$(V) > 0.0`. -/
def thresholdConditionCode {α : Type} [LinearOrderedField α] (V : α) : Bool :=
  decide (V > 0.0)

/-- The sim code of `TRAUBMILES_PSTEP`:
`scalar mdt= DT/scalar($(ntimes)); for (mt=0; mt < $(ntimes); mt++) { ... }`,
the loop body being written out as in the fragment. -/
def simCode {α : Type} [LinearOrderedField α] (exp : α → α) (p : TraubMilesParams α)
    (ntimes Isyn DT : α) (fuel : Nat) (s : TraubMilesState α) :
    Option (TraubMilesState α) :=
  let mdt := DT / ntimes
  forLoop (fun mt => decide ((mt : α) < ntimes)) (fun s0 => Id.run do
    let mut s := s0
    let Imem := -(s.m * s.m * s.m * s.h * p.gNa * (s.V - p.ENa) +
                  s.n * s.n * s.n * s.n * p.gK * (s.V - p.EK) +
                  p.gl * (s.V - p.El) - Isyn)
    let mut _a := 0
    if s.V = -52.0 then _a := 1.28
    else _a := 0.32 * (-52.0 - s.V) / (exp ((-52.0 - s.V) / 4.0) - 1.0)
    let mut _b := 0
    if s.V = -25.0 then _b := 1.4
    else _b := 0.28 * (s.V + 25.0) / (exp ((s.V + 25.0) / 5.0) - 1.0)
    s := { s with m := s.m + (_a * (1.0 - s.m) - _b * s.m) * mdt }
    _a := 0.128 * exp ((-48.0 - s.V) / 18.0)
    _b := 4.0 / (exp ((-25.0 - s.V) / 5.0) + 1.0)
    s := { s with h := s.h + (_a * (1.0 - s.h) - _b * s.h) * mdt }
    if s.V = -50.0 then _a := 0.16
    else _a := 0.032 * (-50.0 - s.V) / (exp ((-50.0 - s.V) / 5.0) - 1.0)
    _b := 0.5 * exp ((-55.0 - s.V) / 40.0)
    s := { s with n := s.n + (_a * (1.0 - s.n) - _b * s.n) * mdt }
    s := { s with V := s.V + Imem / p.C * mdt }
    return s) fuel 0 s

end TRAUBMILES_PSTEP

namespace NGRADSYNAPSE

/-- The kernel-local `addtoinSyn` and the accumulated synaptic input. -/
structure State (α : Type) where
  addtoinSyn : α
  inSyn : α
  deriving DecidableEq, Repr

/-- Modelled from the spec: `$(updatelinsyn)` is expanded by the kernel
generator, which is not among the sources; by the spec the fragment "adds" the
computed amount "to accumulated input". -/
def updatelinsyn {α : Type} [LinearOrderedField α] (s : State α) : State α :=
  { s with inSyn := s.inSyn + s.addtoinSyn }

/-- The event threshold `$(V_pre) > $(Epre)`. -/
def evntThreshold {α : Type} [LinearOrderedField α] (V_pre Epre : α) : Bool :=
  decide (V_pre > Epre)

/-- The event code of the graded synapse:
`$(addtoinSyn) = $(g) * tanh(($(V_pre) - $(Epre)) / $(Vslope))* DT;`
`if ($(addtoinSyn) < 0) $(addtoinSyn) = 0.0;`
`$(updatelinsyn);`. -/
def simCodeEvnt {α : Type} [LinearOrderedField α] (tanh : α → α)
    (g V_pre Epre Vslope DT : α) (s0 : State α) : State α := Id.run do
  let mut s := s0
  s := { s with addtoinSyn := g * tanh ((V_pre - Epre) / Vslope) * DT }
  if s.addtoinSyn < 0 then s := { s with addtoinSyn := 0.0 }
  s := updatelinsyn s
  return s

end NGRADSYNAPSE

namespace EXPDECAY

/-- The decay code `$(inSyn)*=$(expDecay);` of the exponential-decay
postsynaptic model: the new value of the accumulated input `inSyn`. -/
def postSynDecay {α : Type} [Field α] (expDecay inSyn : α) : α :=
  inSyn * expDecay

end EXPDECAY

namespace LEARN1SYNAPSE

/-- The values substituted into the code of the STDP synapse: the seven derived
parameters and the parameters `gMax`, `gMid`, `gSlope`, `tauShift`. -/
structure Values (α : Type) where
  lim0 : α
  lim1 : α
  slope0 : α
  slope1 : α
  off0 : α
  off1 : α
  off2 : α
  gMax : α
  gMid : α
  gSlope : α
  tauShift : α
  deriving Repr

/-- The variables `g`, `gRaw` of the STDP synapse, the kernel-local
`addtoinSyn` and the accumulated synaptic input. -/
structure State (α : Type) where
  g : α
  gRaw : α
  addtoinSyn : α
  inSyn : α
  deriving DecidableEq, Repr

/-- Modelled from the spec: `$(updatelinsyn)` is expanded by the kernel
generator, which is not among the sources; by the spec the presynaptic code
"adds" the weight "to accumulated input". -/
def updatelinsyn {α : Type} [LinearOrderedField α] (s : State α) : State α :=
  { s with inSyn := s.inSyn + s.addtoinSyn }

/-- The code for a presynaptic spike (`simCode`):
`$(addtoinSyn) = $(g); $(updatelinsyn);`
`scalar dt = $(sT_post) - $(t) - ($(tauShift)); scalar dg = 0;`
`if (dt > $(lim0)) dg = -($(off0)) ;`
`else if (dt > 0) dg = $(slope0) * dt + ($(off1));`
`else if (dt > $(lim1)) dg = $(slope1) * dt + ($(off1));`
`else dg = - ($(off2)) ;`
`$(gRaw) += dg;`
`$(g)=$(gMax)/2 *(tanh($(gSlope)*($(gRaw) - ($(gMid))))+1);`
where `$(gMax)` is a scalar value. -/
def simCode {α : Type} [LinearOrderedField α] (tanh : α → α) (v : Values α)
    (sT_post t : α) (s0 : State α) : State α := Id.run do
  let mut s := s0
  s := { s with addtoinSyn := s.g }
  s := updatelinsyn s
  let dt := sT_post - t - v.tauShift
  let mut dg := 0
  if dt > v.lim0 then
    dg := -v.off0
  else if dt > 0 then
    dg := v.slope0 * dt + v.off1
  else if dt > v.lim1 then
    dg := v.slope1 * dt + v.off1
  else dg := -v.off2
  s := { s with gRaw := s.gRaw + dg }
  s := { s with g := v.gMax / 2 * (tanh (v.gSlope * (s.gRaw - v.gMid)) + 1) }
  return s

/-- The code for a postsynaptic spike (`simLearnPost`):
`scalar dt = $(t) - ($(sT_pre)) - ($(tauShift)); scalar dg =0;`
`if (dt > $(lim0)) dg = -($(off0)) ;`
`else if (dt > 0) dg = $(slope0) * dt + ($(off1));`
`else if (dt > $(lim1)) dg = $(slope1) * dt + ($(off1));`
`else dg = -($(off2)) ;`
`$(gRaw) += dg;`
`$(g)=$(gMax)/2.0 *(tanh($(gSlope)*($(gRaw) - ($(gMid))))+1);`. -/
def simLearnPost {α : Type} [LinearOrderedField α] (tanh : α → α) (v : Values α)
    (sT_pre t : α) (s0 : State α) : State α := Id.run do
  let mut s := s0
  let dt := t - sT_pre - v.tauShift
  let mut dg := 0
  if dt > v.lim0 then
    dg := -v.off0
  else if dt > 0 then
    dg := v.slope0 * dt + v.off1
  else if dt > v.lim1 then
    dg := v.slope1 * dt + v.off1
  else dg := -v.off2
  s := { s with gRaw := s.gRaw + dg }
  s := { s with g := v.gMax / 2.0 * (tanh (v.gSlope * (s.gRaw - v.gMid)) + 1) }
  return s

/-- The piecewise-linear increment in the words of the spec: `-off0` if
`x > lim0`; `slope0*x + off1` if `0 < x <= lim0`; `slope1*x + off1` if
`lim1 < x <= 0`; `-off2` otherwise.  The cases are tried in this order. -/
def increment_spec {α : Type} [LinearOrderedField α] (v : Values α) (x : α) : α :=
  if x > v.lim0 then -v.off0
  else if 0 < x ∧ x ≤ v.lim0 then v.slope0 * x + v.off1
  else if v.lim1 < x ∧ x ≤ 0 then v.slope1 * x + v.off1
  else -v.off2

/-- The effective weight in the words of the spec:
`g = gMax/2 * (tanh(gSlope*(gRaw - gMid)) + 1)`. -/
def weight_spec {α : Type} [LinearOrderedField α] (tanh : α → α) (v : Values α)
    (gRaw : α) : α :=
  v.gMax / 2 * (tanh (v.gSlope * (gRaw - v.gMid)) + 1)

/-- The values that `pwSTDP` derives from a parameter vector, together with the
parameters `gMax` (5), `gMid` (6), `gSlope` (7) and `tauShift` (8), as they are
substituted into the code of the record; `none` when a read is out of bounds. -/
def derivedValues {α : Type} [Field α] (pars : List α) (dt : α) :
    Option (Values α) := do
  let lim0 ← pwSTDP.calculateDerivedParameter 0 pars dt
  let lim1 ← pwSTDP.calculateDerivedParameter 1 pars dt
  let slope0 ← pwSTDP.calculateDerivedParameter 2 pars dt
  let slope1 ← pwSTDP.calculateDerivedParameter 3 pars dt
  let off0 ← pwSTDP.calculateDerivedParameter 4 pars dt
  let off1 ← pwSTDP.calculateDerivedParameter 5 pars dt
  let off2 ← pwSTDP.calculateDerivedParameter 6 pars dt
  let gMax ← pars[5]?
  let gMid ← pars[6]?
  let gSlope ← pars[7]?
  let tauShift ← pars[8]?
  pure { lim0, lim1, slope0, slope1, off0, off1, off2, gMax, gMid, gSlope, tauShift }

end LEARN1SYNAPSE

/-! ## The strategies as computations in the program state -/

/-- The state that code in `utils.cc` can name besides its arguments and
locals: the three global model vectors and the global handle variables.  The
classes `rulkovdp`, `expDecayDp` and `pwSTDP` declare no data member, so a
strategy object adds nothing to it. -/
structure ProgramState where
  neuron : NeuronGlobals
  postSyn : PostSynGlobals
  weightUpdate : WeightUpdateGlobals
  deriving DecidableEq, Repr

/-- A method body run in a program state: it may read and write the state, and
it yields no result when a read of the parameter vector is out of bounds. -/
abbrev Method (α : Type) := StateT ProgramState Option α

namespace rulkovdp

/-- `rulkovdp::ip0` run in a program state: `return pars[0]*pars[0]*pars[1];`. -/
def ip0M {α : Type} [Field α] (pars : List α) : Method α := do
  let a ← (pars[0]? : Option α)
  let b ← (pars[1]? : Option α)
  pure (a * a * b)

/-- `rulkovdp::ip1` run in a program state: `return pars[0]*pars[2];`. -/
def ip1M {α : Type} [Field α] (pars : List α) : Method α := do
  let a ← (pars[0]? : Option α)
  let c ← (pars[2]? : Option α)
  pure (a * c)

/-- `rulkovdp::ip2` run in a program state:
`return pars[0]*pars[1]+pars[0]*pars[2];`. -/
def ip2M {α : Type} [Field α] (pars : List α) : Method α := do
  let a ← (pars[0]? : Option α)
  let b ← (pars[1]? : Option α)
  let c ← (pars[2]? : Option α)
  pure (a * b + a * c)

/-- `rulkovdp::calculateDerivedParameter` run in a program state. -/
def calculateDerivedParameterM {α : Type} [Field α] (index : Int) (pars : List α)
    (_dt : α := 1) : Method α :=
  if index = 0 then ip0M pars
  else if index = 1 then ip1M pars
  else if index = 2 then ip2M pars
  else pure (-1)

end rulkovdp

namespace expDecayDp

/-- `expDecayDp::expDecay` run in a program state: `return exp(-dt/pars[0]);`. -/
def expDecayM {α : Type} [Field α] (exp : α → α) (pars : List α) (dt : α) : Method α := do
  let tau ← (pars[0]? : Option α)
  pure (exp (-dt / tau))

/-- `expDecayDp::calculateDerivedParameter` run in a program state. -/
def calculateDerivedParameterM {α : Type} [Field α] (exp : α → α) (index : Int)
    (pars : List α) (dt : α := 1) : Method α :=
  if index = 0 then expDecayM exp pars dt
  else pure (-1)

end expDecayDp

namespace pwSTDP

/-- `pwSTDP::lim0` run in a program state. -/
def lim0M {α : Type} [Field α] (pars : List α) (_dt : α) : Method α := do
  let p4 ← (pars[4]? : Option α)
  let p1 ← (pars[1]? : Option α)
  let p0 ← (pars[0]? : Option α)
  pure ((1 / p4 + 1 / p1) * p0 / (2 / p1))

/-- `pwSTDP::lim1` run in a program state. -/
def lim1M {α : Type} [Field α] (pars : List α) (_dt : α) : Method α := do
  let p3 ← (pars[3]? : Option α)
  let p1 ← (pars[1]? : Option α)
  let p0 ← (pars[0]? : Option α)
  pure (-((1 / p3 + 1 / p1) * p0 / (2 / p1)))

/-- `pwSTDP::slope0` run in a program state. -/
def slope0M {α : Type} [Field α] (pars : List α) (_dt : α) : Method α := do
  let p5 ← (pars[5]? : Option α)
  let p1 ← (pars[1]? : Option α)
  let p0 ← (pars[0]? : Option α)
  pure (-2 * p5 / (p1 * p0))

/-- `pwSTDP::slope1` run in a program state: `return -1*slope0(pars, dt);`. -/
def slope1M {α : Type} [Field α] (pars : List α) (dt : α) : Method α := do
  let s ← slope0M pars dt
  pure (-1 * s)

/-- `pwSTDP::off0` run in a program state. -/
def off0M {α : Type} [Field α] (pars : List α) (_dt : α) : Method α := do
  let p5 ← (pars[5]? : Option α)
  let p4 ← (pars[4]? : Option α)
  pure (p5 / p4)

/-- `pwSTDP::off1` run in a program state. -/
def off1M {α : Type} [Field α] (pars : List α) (_dt : α) : Method α := do
  let p5 ← (pars[5]? : Option α)
  let p1 ← (pars[1]? : Option α)
  pure (p5 / p1)

/-- `pwSTDP::off2` run in a program state. -/
def off2M {α : Type} [Field α] (pars : List α) (_dt : α) : Method α := do
  let p5 ← (pars[5]? : Option α)
  let p3 ← (pars[3]? : Option α)
  pure (p5 / p3)

/-- `pwSTDP::calculateDerivedParameter` run in a program state. -/
def calculateDerivedParameterM {α : Type} [Field α] (index : Int) (pars : List α)
    (dt : α) : Method α :=
  if index = 0 then lim0M pars dt
  else if index = 1 then lim1M pars dt
  else if index = 2 then slope0M pars dt
  else if index = 3 then slope1M pars dt
  else if index = 4 then off0M pars dt
  else if index = 5 then off1M pars dt
  else if index = 6 then off2M pars dt
  else pure (-1)

end pwSTDP

/-- Virtual dispatch of `dpclass::calculateDerivedParameter`, run in a program
state. -/
def dpclass.calculateDerivedParameterM {α : Type} [Field α] (exp : α → α) (d : dpclass)
    (index : Int) (pars : List α) (dt : α) : Method α :=
  match d with
  | .rulkovdp => rulkovdp.calculateDerivedParameterM index pars dt
  | .expDecayDp => expDecayDp.calculateDerivedParameterM exp index pars dt
  | .pwSTDP => pwSTDP.calculateDerivedParameterM index pars dt

/-! ## Auxiliary definitions of the statements -/

/-- A neuron record with one variable name and no variable type, carrying the
strategy `rulkovdp` without any parameter name. -/
def inconsistentRecord : neuronModel :=
  { varNames := ["V"], varTypes := [], pNames := [], dps := some dpclass.rulkovdp }

/-- Whether one of the code fragments of a weight-update record mentions the
symbol `sym`. -/
def weightUpdateModel.references (r : weightUpdateModel) (sym : String) : Bool :=
  occursIn sym r.simCode || occursIn sym r.simCodeEvnt || occursIn sym r.simLearnPost ||
    occursIn sym r.evntThreshold

/-! ## Auxiliary facts about the embedding -/

theorem foldl_push_back {ρ : Type} (l : List ρ) (v : vector ρ) :
    l.foldl vector.push_back v = v ++ l := by
  induction l generalizing v with
  | nil => simp
  | cons x xs ih => simp [List.foldl, ih, vector.push_back]

theorem prepareStandardModels_nModels (g : vector neuronModel) (d : Option dpclass)
    (e : List neuronModel) :
    (prepareStandardModels g d e).nModels
      = g ++ (prepareStandardModels [] d []).nModels ++ e := by
  simp [prepareStandardModels, extra_neurons, vector.push_back, foldl_push_back, Id.run]

theorem prepareStandardModels_length (d : Option dpclass) :
    (prepareStandardModels [] d []).nModels.length = 9 := rfl

theorem preparePostSynModels_postSynModels (g : vector postSynModel) (d : Option dpclass)
    (e : List postSynModel) :
    (preparePostSynModels g d e).postSynModels
      = g ++ (preparePostSynModels [] d []).postSynModels ++ e := by
  simp [preparePostSynModels, extra_postsynapses, vector.push_back, foldl_push_back, Id.run]

theorem preparePostSynModels_length (d : Option dpclass) :
    (preparePostSynModels [] d []).postSynModels.length = 2 := rfl

theorem prepareWeightUpdateModels_weightUpdateModels (g : vector weightUpdateModel)
    (d : Option dpclass) (a b : Bool) (e : List weightUpdateModel) :
    (prepareWeightUpdateModels g d a b e).weightUpdateModels
      = g ++ (prepareWeightUpdateModels [] d a b []).weightUpdateModels ++ e := by
  simp [prepareWeightUpdateModels, extra_weightupdates, vector.push_back, foldl_push_back,
    Id.run]

theorem prepareWeightUpdateModels_length (d : Option dpclass) (a b : Bool) :
    (prepareWeightUpdateModels [] d a b []).weightUpdateModels.length = 3 := rfl

/-- A record of the standard neuron library is found at its offset behind the
records that were in `nModels` on entry, whatever the extension appends. -/
theorem prepareStandardModels_getElem? (g : vector neuronModel) (d : Option dpclass)
    (e : List neuronModel) (k : Nat) (hk : k < 9) :
    (prepareStandardModels g d e).nModels[g.length + k]?
      = (prepareStandardModels [] d []).nModels[k]? := by
  have hlen := prepareStandardModels_length d
  rw [prepareStandardModels_nModels, List.append_assoc,
    List.getElem?_append_right (Nat.le_add_right _ _), Nat.add_sub_cancel_left,
    List.getElem?_append_left (by omega)]

theorem preparePostSynModels_getElem? (g : vector postSynModel) (d : Option dpclass)
    (e : List postSynModel) (k : Nat) (hk : k < 2) :
    (preparePostSynModels g d e).postSynModels[g.length + k]?
      = (preparePostSynModels [] d []).postSynModels[k]? := by
  have hlen := preparePostSynModels_length d
  rw [preparePostSynModels_postSynModels, List.append_assoc,
    List.getElem?_append_right (Nat.le_add_right _ _), Nat.add_sub_cancel_left,
    List.getElem?_append_left (by omega)]

theorem prepareWeightUpdateModels_getElem? (g : vector weightUpdateModel)
    (d : Option dpclass) (a b : Bool) (e : List weightUpdateModel) (k : Nat) (hk : k < 3) :
    (prepareWeightUpdateModels g d a b e).weightUpdateModels[g.length + k]?
      = (prepareWeightUpdateModels [] d a b []).weightUpdateModels[k]? := by
  have hlen := prepareWeightUpdateModels_length d a b
  rw [prepareWeightUpdateModels_weightUpdateModels, List.append_assoc,
    List.getElem?_append_right (Nat.le_add_right _ _), Nat.add_sub_cancel_left,
    List.getElem?_append_left (by omega)]

theorem prepareStandardModels_MAPNEURON (g : vector neuronModel) (d : Option dpclass)
    (e : List neuronModel) : (prepareStandardModels g d e).MAPNEURON = g.length + 0 := by
  simp [prepareStandardModels, vector.push_back, vector.size, Id.run]

theorem preparePostSynModels_EXPDECAY (g : vector postSynModel) (d : Option dpclass)
    (e : List postSynModel) : (preparePostSynModels g d e).EXPDECAY = g.length + 0 := by
  simp [preparePostSynModels, vector.push_back, vector.size, Id.run]

theorem preparePostSynModels_IZHIKEVICH_PS (g : vector postSynModel) (d : Option dpclass)
    (e : List postSynModel) : (preparePostSynModels g d e).IZHIKEVICH_PS = g.length + 1 := by
  simp [preparePostSynModels, vector.push_back, vector.size, Id.run]

theorem prepareWeightUpdateModels_LEARN1SYNAPSE (g : vector weightUpdateModel)
    (d : Option dpclass) (a b : Bool) (e : List weightUpdateModel) :
    (prepareWeightUpdateModels g d a b e).LEARN1SYNAPSE = g.length + 2 := by
  simp [prepareWeightUpdateModels, vector.push_back, vector.size, Id.run]

/-! ## Derived-parameter formulas -/

/-- C1: on a parameter vector with at least three entries `a, b, c, ...`,
`rulkovdp.calculateDerivedParameter` returns `a*a*b` at index 0, `a*c` at index
1 and `a*b + a*c` at index 2, for every `dt`; the record registered under
`MAPNEURON` carries `rulkovdp` and names its derived parameters `ip0, ip1, ip2`
in this order; and on `[1, 2, 3]` the three results are 2, 3 and 5. -/
theorem rulkovdp_calculateDerivedParameter_spec {α : Type} [Field α] (a b c : α)
    (rest : List α) (dt : α) :
    rulkovdp.calculateDerivedParameter 0 (a :: b :: c :: rest) dt = some (a * a * b) ∧
    rulkovdp.calculateDerivedParameter 1 (a :: b :: c :: rest) dt = some (a * c) ∧
    rulkovdp.calculateDerivedParameter 2 (a :: b :: c :: rest) dt = some (a * b + a * c) ∧
    (∀ (g : vector neuronModel) (d : Option dpclass) (e : List neuronModel),
      ((prepareStandardModels g d e).nModels[(prepareStandardModels g d e).MAPNEURON]?).map
          (fun r => (r.dpNames, r.dps))
        = some (["ip0", "ip1", "ip2"], some dpclass.rulkovdp)) ∧
    rulkovdp.calculateDerivedParameter 0 ([1, 2, 3] : List α) dt = some 2 ∧
    rulkovdp.calculateDerivedParameter 1 ([1, 2, 3] : List α) dt = some 3 ∧
    rulkovdp.calculateDerivedParameter 2 ([1, 2, 3] : List α) dt = some 5 := by
  refine ⟨?_, ?_, ?_, ?_, ?_, ?_, ?_⟩
  · simp [rulkovdp.calculateDerivedParameter, rulkovdp.ip0]
  · simp [rulkovdp.calculateDerivedParameter, rulkovdp.ip1]
  · simp [rulkovdp.calculateDerivedParameter, rulkovdp.ip2]
  · intro g d e
    rw [prepareStandardModels_MAPNEURON, prepareStandardModels_getElem? g d e 0 (by decide)]
    rfl
  · simp [rulkovdp.calculateDerivedParameter, rulkovdp.ip0]
  · simp [rulkovdp.calculateDerivedParameter, rulkovdp.ip1]
  · simp [rulkovdp.calculateDerivedParameter, rulkovdp.ip2]
    norm_num

/-- C2: on a parameter vector with at least six entries `p0, ..., p5, ...`,
`pwSTDP.calculateDerivedParameter` returns at the indices 0 to 6 the values
`(1/p4 + 1/p1)*p0/(2/p1)`, `-((1/p3 + 1/p1)*p0/(2/p1))`, `-2*p5/(p1*p0)`, the
negation of the index-2 result, `p5/p4`, `p5/p1` and `p5/p3`, for every `dt`;
the record registered under `LEARN1SYNAPSE` carries `pwSTDP` and names its
derived parameters `lim0, lim1, slope0, slope1, off0, off1, off2` in this
order. -/
theorem pwSTDP_calculateDerivedParameter_spec {α : Type} [Field α]
    (p0 p1 p2 p3 p4 p5 : α) (rest : List α) (dt : α) :
    pwSTDP.calculateDerivedParameter 0 (p0 :: p1 :: p2 :: p3 :: p4 :: p5 :: rest) dt
      = some ((1 / p4 + 1 / p1) * p0 / (2 / p1)) ∧
    pwSTDP.calculateDerivedParameter 1 (p0 :: p1 :: p2 :: p3 :: p4 :: p5 :: rest) dt
      = some (-((1 / p3 + 1 / p1) * p0 / (2 / p1))) ∧
    pwSTDP.calculateDerivedParameter 2 (p0 :: p1 :: p2 :: p3 :: p4 :: p5 :: rest) dt
      = some (-2 * p5 / (p1 * p0)) ∧
    (∃ s : α,
      pwSTDP.calculateDerivedParameter 2 (p0 :: p1 :: p2 :: p3 :: p4 :: p5 :: rest) dt
        = some s ∧
      pwSTDP.calculateDerivedParameter 3 (p0 :: p1 :: p2 :: p3 :: p4 :: p5 :: rest) dt
        = some (-s)) ∧
    pwSTDP.calculateDerivedParameter 4 (p0 :: p1 :: p2 :: p3 :: p4 :: p5 :: rest) dt
      = some (p5 / p4) ∧
    pwSTDP.calculateDerivedParameter 5 (p0 :: p1 :: p2 :: p3 :: p4 :: p5 :: rest) dt
      = some (p5 / p1) ∧
    pwSTDP.calculateDerivedParameter 6 (p0 :: p1 :: p2 :: p3 :: p4 :: p5 :: rest) dt
      = some (p5 / p3) ∧
    (∀ (g : vector weightUpdateModel) (d : Option dpclass) (x y : Bool)
        (e : List weightUpdateModel),
      ((prepareWeightUpdateModels g d x y e).weightUpdateModels[
          (prepareWeightUpdateModels g d x y e).LEARN1SYNAPSE]?).map
          (fun r => (r.dpNames, r.dps))
        = some (["lim0", "lim1", "slope0", "slope1", "off0", "off1", "off2"],
            some dpclass.pwSTDP)) := by
  refine ⟨?_, ?_, ?_, ⟨-2 * p5 / (p1 * p0), ?_, ?_⟩, ?_, ?_, ?_, ?_⟩
  · simp [pwSTDP.calculateDerivedParameter, pwSTDP.lim0]
  · simp [pwSTDP.calculateDerivedParameter, pwSTDP.lim1]
  · simp [pwSTDP.calculateDerivedParameter, pwSTDP.slope0]
  · simp [pwSTDP.calculateDerivedParameter, pwSTDP.slope0]
  · simp [pwSTDP.calculateDerivedParameter, pwSTDP.slope1, pwSTDP.slope0]
  · simp [pwSTDP.calculateDerivedParameter, pwSTDP.off0]
  · simp [pwSTDP.calculateDerivedParameter, pwSTDP.off1]
  · simp [pwSTDP.calculateDerivedParameter, pwSTDP.off2]
  · intro g d x y e
    rw [prepareWeightUpdateModels_LEARN1SYNAPSE,
      prepareWeightUpdateModels_getElem? g d x y e 2 (by decide)]
    rfl

/-- C3, as the spec states it, fails: over the rationals, with the parameters
`[10,5,20,8,8,1.0,0.5,4.0,0,0]`, index 0 does not give 0.8125 and index 1 does
not give -0.8125. -/
theorem pwSTDP_lim_example_refuted :
    pwSTDP.calculateDerivedParameter 0 ([10, 5, 20, 8, 8, 1, 1 / 2, 4, 0, 0] : List ℚ) 1
      ≠ some (8125 / 10000) ∧
    pwSTDP.calculateDerivedParameter 1 ([10, 5, 20, 8, 8, 1, 1 / 2, 4, 0, 0] : List ℚ) 1
      ≠ some (-(8125 / 10000)) := by
  constructor <;>
    (simp [pwSTDP.calculateDerivedParameter, pwSTDP.lim0, pwSTDP.lim1]; norm_num)

/-- C3, amended: with the parameters `[10,5,20,8,8,1.0,0.5,4.0,0,0]`, in every
field of characteristic zero and for every `dt`,
`pwSTDP.calculateDerivedParameter` returns `lim0 = 8.125` at index 0 and
`lim1 = -8.125` at index 1. -/
theorem pwSTDP_lim_example {α : Type} [Field α] [CharZero α] (dt : α) :
    pwSTDP.calculateDerivedParameter 0 ([10, 5, 20, 8, 8, 1, 1 / 2, 4, 0, 0] : List α) dt
      = some (8125 / 1000) ∧
    pwSTDP.calculateDerivedParameter 1 ([10, 5, 20, 8, 8, 1, 1 / 2, 4, 0, 0] : List α) dt
      = some (-(8125 / 1000)) := by
  constructor <;>
    (simp [pwSTDP.calculateDerivedParameter, pwSTDP.lim0, pwSTDP.lim1]; norm_num)

/-- C3, amended, over the rationals with `dt = 1`. -/
theorem pwSTDP_lim_example_witness :
    pwSTDP.calculateDerivedParameter 0 ([10, 5, 20, 8, 8, 1, 1 / 2, 4, 0, 0] : List ℚ) 1
      = some (8125 / 1000) ∧
    pwSTDP.calculateDerivedParameter 1 ([10, 5, 20, 8, 8, 1, 1 / 2, 4, 0, 0] : List ℚ) 1
      = some (-(8125 / 1000)) :=
  @pwSTDP_lim_example ℚ _ _ 1

/-- C4: with the parameters `[10,5,20,8,8,1.0,0.5,4.0,0,0]`, in every field of
characteristic zero and for every `dt`, `pwSTDP.calculateDerivedParameter`
returns `slope0 = -0.04` at index 2, `slope1 = 0.04` at index 3, which is the
negation of the index-2 result, `off0 = 0.125` at index 4, `off1 = 0.2` at
index 5 and `off2 = 0.125` at index 6. -/
theorem pwSTDP_slope_off_example {α : Type} [Field α] [CharZero α] (dt : α) :
    pwSTDP.calculateDerivedParameter 2 ([10, 5, 20, 8, 8, 1, 1 / 2, 4, 0, 0] : List α) dt
      = some (-(4 / 100)) ∧
    pwSTDP.calculateDerivedParameter 3 ([10, 5, 20, 8, 8, 1, 1 / 2, 4, 0, 0] : List α) dt
      = some (4 / 100) ∧
    (∃ s : α,
      pwSTDP.calculateDerivedParameter 2 ([10, 5, 20, 8, 8, 1, 1 / 2, 4, 0, 0] : List α) dt
        = some s ∧
      pwSTDP.calculateDerivedParameter 3 ([10, 5, 20, 8, 8, 1, 1 / 2, 4, 0, 0] : List α) dt
        = some (-s)) ∧
    pwSTDP.calculateDerivedParameter 4 ([10, 5, 20, 8, 8, 1, 1 / 2, 4, 0, 0] : List α) dt
      = some (125 / 1000) ∧
    pwSTDP.calculateDerivedParameter 5 ([10, 5, 20, 8, 8, 1, 1 / 2, 4, 0, 0] : List α) dt
      = some (2 / 10) ∧
    pwSTDP.calculateDerivedParameter 6 ([10, 5, 20, 8, 8, 1, 1 / 2, 4, 0, 0] : List α) dt
      = some (125 / 1000) := by
  refine ⟨?_, ?_, ⟨-(4 / 100), ?_, ?_⟩, ?_, ?_, ?_⟩ <;>
    (simp [pwSTDP.calculateDerivedParameter, pwSTDP.slope0, pwSTDP.slope1, pwSTDP.off0,
      pwSTDP.off1, pwSTDP.off2]; try norm_num)

/-- C4 over the rationals with `dt = 1`. -/
theorem pwSTDP_slope_off_example_witness :
    pwSTDP.calculateDerivedParameter 2 ([10, 5, 20, 8, 8, 1, 1 / 2, 4, 0, 0] : List ℚ) 1
      = some (-(4 / 100)) ∧
    pwSTDP.calculateDerivedParameter 3 ([10, 5, 20, 8, 8, 1, 1 / 2, 4, 0, 0] : List ℚ) 1
      = some (4 / 100) ∧
    (∃ s : ℚ,
      pwSTDP.calculateDerivedParameter 2 ([10, 5, 20, 8, 8, 1, 1 / 2, 4, 0, 0] : List ℚ) 1
        = some s ∧
      pwSTDP.calculateDerivedParameter 3 ([10, 5, 20, 8, 8, 1, 1 / 2, 4, 0, 0] : List ℚ) 1
        = some (-s)) ∧
    pwSTDP.calculateDerivedParameter 4 ([10, 5, 20, 8, 8, 1, 1 / 2, 4, 0, 0] : List ℚ) 1
      = some (125 / 1000) ∧
    pwSTDP.calculateDerivedParameter 5 ([10, 5, 20, 8, 8, 1, 1 / 2, 4, 0, 0] : List ℚ) 1
      = some (2 / 10) ∧
    pwSTDP.calculateDerivedParameter 6 ([10, 5, 20, 8, 8, 1, 1 / 2, 4, 0, 0] : List ℚ) 1
      = some (125 / 1000) :=
  @pwSTDP_slope_off_example ℚ _ _ 1

/-- The Taylor polynomial of degree six brackets `exp(-1/10)` closely enough. -/
theorem exp_neg_tenth_near : |Real.exp (-1 / 10) - 904837 / 1000000| < 1 / 1000000 := by
  have hx : |(-1 / 10 : ℝ)| ≤ 1 := by
    rw [abs_le]; constructor <;> norm_num
  have hb := Real.exp_bound hx (n := 7) (by norm_num)
  have habs : |(-1 / 10 : ℝ)| = 1 / 10 := by
    rw [abs_of_neg (by norm_num)]; norm_num
  rw [habs] at hb
  simp only [Finset.sum_range_succ, Finset.sum_range_zero, Nat.factorial] at hb
  norm_num at hb
  rw [abs_le] at hb
  rw [abs_lt]
  constructor <;> linarith [hb.1, hb.2]

/-- C5: over the reals, with `exp` the exponential function, on every parameter
vector whose entry 0 is `tau` and for every `dt`,
`expDecayDp.calculateDerivedParameter` returns `exp(-dt/tau)` at index 0; the
record registered under `EXPDECAY` carries `expDecayDp`, has the single derived
parameter `expDecay` and the parameter `tau` at position 0; and for `tau = 10`,
`dt = 1` the result lies within `10^-6` of 0.904837. -/
theorem expDecayDp_calculateDerivedParameter_spec (tau dt : ℝ) (rest : List ℝ) :
    expDecayDp.calculateDerivedParameter Real.exp 0 (tau :: rest) dt
      = some (Real.exp (-dt / tau)) ∧
    (∀ (g : vector postSynModel) (d : Option dpclass) (e : List postSynModel),
      ((preparePostSynModels g d e).postSynModels[(preparePostSynModels g d e).EXPDECAY]?).map
          (fun r => (r.dpNames, r.pNames[0]?, r.dps))
        = some (["expDecay"], some "tau", some dpclass.expDecayDp)) ∧
    (∃ v : ℝ, expDecayDp.calculateDerivedParameter Real.exp 0 (10 :: rest) 1 = some v ∧
      v = Real.exp (-(1 / 10)) ∧ |v - 904837 / 1000000| < 1 / 10 ^ 6) := by
  refine ⟨?_, ?_, ⟨Real.exp (-1 / 10), ?_, ?_, ?_⟩⟩
  · simp [expDecayDp.calculateDerivedParameter, expDecayDp.expDecay]
  · intro g d e
    rw [preparePostSynModels_EXPDECAY, preparePostSynModels_getElem? g d e 0 (by decide)]
    rfl
  · simp [expDecayDp.calculateDerivedParameter, expDecayDp.expDecay]
  · norm_num
  · have h := exp_neg_tenth_near
    norm_num at h ⊢
    exact h

/-- C6, as the spec states it, fails: an out-of-range index produces a value,
the number -1, instead of a failure.  Shown for `rulkovdp` at index 3 and at
index -1, for `expDecayDp` at index 1 and for `pwSTDP` at index 7. -/
theorem calculateDerivedParameter_out_of_range_returns :
    rulkovdp.calculateDerivedParameter 3 ([1, 2, 3] : List ℚ) 1 = some (-1) ∧
    rulkovdp.calculateDerivedParameter (-1) ([1, 2, 3] : List ℚ) 1 = some (-1) ∧
    expDecayDp.calculateDerivedParameter Real.exp 1 ([10, 0] : List ℝ) 1 = some (-1) ∧
    pwSTDP.calculateDerivedParameter 7 ([10, 5, 20, 8, 8, 1, 1 / 2, 4, 0, 0] : List ℚ) 1
      = some (-1) := by
  refine ⟨?_, ?_, ?_, ?_⟩ <;>
    simp [rulkovdp.calculateDerivedParameter, expDecayDp.calculateDerivedParameter,
      pwSTDP.calculateDerivedParameter]

/-- C6, amended: for each built-in strategy and every index outside
`[0, numDerivedParams)` (3 for `rulkovdp`, 1 for `expDecayDp`, 7 for `pwSTDP`),
`calculateDerivedParameter` returns the sentinel value -1, whatever the
parameter vector and `dt`; no error is raised. -/
theorem calculateDerivedParameter_out_of_range {α : Type} [Field α] (exp : α → α)
    (index : Int) (pars : List α) (dt : α) :
    (index < 0 ∨ 3 ≤ index →
      rulkovdp.calculateDerivedParameter index pars dt = some (-1)) ∧
    (index < 0 ∨ 1 ≤ index →
      expDecayDp.calculateDerivedParameter exp index pars dt = some (-1)) ∧
    (index < 0 ∨ 7 ≤ index →
      pwSTDP.calculateDerivedParameter index pars dt = some (-1)) := by
  refine ⟨?_, ?_, ?_⟩
  · intro h
    have h0 : index ≠ 0 := by omega
    have h1 : index ≠ 1 := by omega
    have h2 : index ≠ 2 := by omega
    simp [rulkovdp.calculateDerivedParameter, h0, h1, h2]
  · intro h
    have h0 : index ≠ 0 := by omega
    simp [expDecayDp.calculateDerivedParameter, h0]
  · intro h
    have h0 : index ≠ 0 := by omega
    have h1 : index ≠ 1 := by omega
    have h2 : index ≠ 2 := by omega
    have h3 : index ≠ 3 := by omega
    have h4 : index ≠ 4 := by omega
    have h5 : index ≠ 5 := by omega
    have h6 : index ≠ 6 := by omega
    simp [pwSTDP.calculateDerivedParameter, h0, h1, h2, h3, h4, h5, h6]

/-- C6, amended, at concrete inputs: index 3 for `rulkovdp`, index -2 for
`expDecayDp` and index 7 for `pwSTDP`, each on the empty parameter vector. -/
theorem calculateDerivedParameter_out_of_range_witness :
    ((3 : Int) < 0 ∨ 3 ≤ (3 : Int)) ∧
    rulkovdp.calculateDerivedParameter 3 ([] : List ℚ) 1 = some (-1) ∧
    ((-2 : Int) < 0 ∨ 1 ≤ (-2 : Int)) ∧
    expDecayDp.calculateDerivedParameter Real.exp (-2) [] 1 = some (-1) ∧
    ((7 : Int) < 0 ∨ 7 ≤ (7 : Int)) ∧
    pwSTDP.calculateDerivedParameter 7 ([] : List ℚ) 1 = some (-1) :=
  ⟨by decide,
   (calculateDerivedParameter_out_of_range (fun x : ℚ => x) 3 [] 1).1 (by decide),
   by decide,
   (calculateDerivedParameter_out_of_range Real.exp (-2) [] 1).2.1 (by decide),
   by decide,
   (calculateDerivedParameter_out_of_range (fun x : ℚ => x) 7 [] 1).2.2 (by decide)⟩

/-! ## The catalogs: handles and registered records -/

theorem prepareStandardModels_handles (g : vector neuronModel) (d : Option dpclass)
    (e : List neuronModel) :
    (prepareStandardModels g d e).MAPNEURON = g.length + 0 ∧
    (prepareStandardModels g d e).POISSONNEURON = g.length + 1 ∧
    (prepareStandardModels g d e).TRAUBMILES_FAST = g.length + 2 ∧
    (prepareStandardModels g d e).TRAUBMILES_ALTERNATIVE = g.length + 3 ∧
    (prepareStandardModels g d e).TRAUBMILES_SAFE = g.length + 4 ∧
    (prepareStandardModels g d e).TRAUBMILES = g.length + 4 ∧
    (prepareStandardModels g d e).TRAUBMILES_PSTEP = g.length + 5 ∧
    (prepareStandardModels g d e).IZHIKEVICH = g.length + 6 ∧
    (prepareStandardModels g d e).IZHIKEVICH_V = g.length + 7 ∧
    (prepareStandardModels g d e).SPIKESOURCE = g.length + 8 := by
  simp [prepareStandardModels, vector.push_back, vector.size, Id.run]

theorem prepareWeightUpdateModels_handles (g : vector weightUpdateModel)
    (d : Option dpclass) (a b : Bool) (e : List weightUpdateModel) :
    (prepareWeightUpdateModels g d a b e).NSYNAPSE = g.length + 0 ∧
    (prepareWeightUpdateModels g d a b e).NGRADSYNAPSE = g.length + 1 ∧
    (prepareWeightUpdateModels g d a b e).LEARN1SYNAPSE = g.length + 2 := by
  simp [prepareWeightUpdateModels, vector.push_back, vector.size, Id.run]

/-- C7: registering a record on a catalog with `n` records (`push_back`, then
handle `size()-1`) returns the handle `n`, stores the record there, and leaves
the record at every handle `h < n` unchanged; any number of later
registrations leave every handle assigned so far pointing at the same record.
Registering `A`, `B`, `C` on the empty catalog yields the handles 0, 1, 2, the
record at handle 1 is `B`, and later registrations keep `A` at 0 and `B` at 1. -/
theorem push_back_handle_stable {ρ : Type} (cat : vector ρ) (r : ρ) :
    (cat.push_back r).size - 1 = cat.size ∧
    (cat.push_back r)[cat.size]? = some r ∧
    (∀ h : Nat, h < cat.size → (cat.push_back r)[h]? = cat[h]?) ∧
    (∀ (later : List ρ) (h : Nat), h < (cat.push_back r).size →
      (later.foldl vector.push_back (cat.push_back r))[h]? = (cat.push_back r)[h]?) ∧
    (∀ (A B C : ρ) (later : List ρ),
      ((vector.push_back [] A).size - 1 = 0 ∧
       ((vector.push_back [] A).push_back B).size - 1 = 1 ∧
       (((vector.push_back [] A).push_back B).push_back C).size - 1 = 2 ∧
       (((vector.push_back [] A).push_back B).push_back C)[1]? = some B ∧
       (later.foldl vector.push_back
          (((vector.push_back [] A).push_back B).push_back C))[0]? = some A ∧
       (later.foldl vector.push_back
          (((vector.push_back [] A).push_back B).push_back C))[1]? = some B)) := by
  refine ⟨?_, ?_, ?_, ?_, ?_⟩
  · simp [vector.push_back, vector.size]
  · simp [vector.push_back, vector.size]
  · intro h hh
    simp only [vector.size] at hh
    simp [vector.push_back, List.getElem?_append_left hh]
  · intro later h hh
    rw [foldl_push_back]
    exact List.getElem?_append_left hh
  · intro A B C later
    simp [vector.push_back, vector.size, foldl_push_back]

/-- C7 at a concrete catalog: registering `"C"` on `["A", "B"]` returns handle
2, and handle 1 still holds `"B"`, also after registering `"D"` and `"E"`. -/
theorem push_back_handle_stable_witness :
    (vector.push_back ["A", "B"] "C").size - 1 = 2 ∧
    (1 < vector.size ["A", "B"] ∧
      (vector.push_back ["A", "B"] "C")[1]? = (["A", "B"] : vector String)[1]?) ∧
    (1 < (vector.push_back ["A", "B"] "C").size ∧
      (["D", "E"].foldl vector.push_back (vector.push_back ["A", "B"] "C"))[1]?
        = (vector.push_back ["A", "B"] "C")[1]?) :=
  ⟨(push_back_handle_stable ["A", "B"] "C").1,
   ⟨by decide, (push_back_handle_stable ["A", "B"] "C").2.2.1 1 (by decide)⟩,
   ⟨by decide, (push_back_handle_stable ["A", "B"] "C").2.2.2.1 ["D", "E"] 1 (by decide)⟩⟩

set_option maxHeartbeats 4000000 in
set_option maxRecDepth 100000 in
/-- C8: started on empty catalogs, whatever the user extensions append, the
three bootstrap functions assign `MAPNEURON=0`, `POISSONNEURON=1`,
`TRAUBMILES_FAST=2`, `TRAUBMILES_ALTERNATIVE=3`, `TRAUBMILES_SAFE=4`,
`TRAUBMILES=4`, `TRAUBMILES_PSTEP=5`, `IZHIKEVICH=6`, `IZHIKEVICH_V=7`,
`SPIKESOURCE=8`; `EXPDECAY=0`, `IZHIKEVICH_PS=1`; `NSYNAPSE=0`,
`NGRADSYNAPSE=1`, `LEARN1SYNAPSE=2`; and the record stored at each handle is
the model of that name, identified by its variable, parameter and
derived-parameter names and its code (for the four Traub-Miles variants also
by the marks of their code: the `SCALAR_MIN` term, the test against the
singular voltage, the fixed or parametric inner loop bound). -/
theorem bootstrap_handles_and_records (d : Option dpclass) (e : List neuronModel)
    (dp : Option dpclass) (ep : List postSynModel) (dw : Option dpclass) (x y : Bool)
    (ew : List weightUpdateModel) :
    ((prepareStandardModels [] d e).MAPNEURON, (prepareStandardModels [] d e).POISSONNEURON,
        (prepareStandardModels [] d e).TRAUBMILES_FAST,
        (prepareStandardModels [] d e).TRAUBMILES_ALTERNATIVE,
        (prepareStandardModels [] d e).TRAUBMILES_SAFE, (prepareStandardModels [] d e).TRAUBMILES,
        (prepareStandardModels [] d e).TRAUBMILES_PSTEP, (prepareStandardModels [] d e).IZHIKEVICH,
        (prepareStandardModels [] d e).IZHIKEVICH_V, (prepareStandardModels [] d e).SPIKESOURCE)
      = (0, 1, 2, 3, 4, 4, 5, 6, 7, 8) ∧
    ((preparePostSynModels [] dp ep).EXPDECAY, (preparePostSynModels [] dp ep).IZHIKEVICH_PS) = (0, 1) ∧
    ((prepareWeightUpdateModels [] dw x y ew).NSYNAPSE, (prepareWeightUpdateModels [] dw x y ew).NGRADSYNAPSE,
        (prepareWeightUpdateModels [] dw x y ew).LEARN1SYNAPSE) = (0, 1, 2) ∧
    ((prepareStandardModels [] d e).nModels[(prepareStandardModels [] d e).MAPNEURON]?).map
        (fun r => (r.varNames, r.pNames, r.dpNames, r.thresholdConditionCode))
      = some (["V", "preV"], ["Vspike", "alpha", "y", "beta"],
          ["ip0", "ip1", "ip2"], "$(V) >= $(ip2)") ∧
    ((prepareStandardModels [] d e).nModels[(prepareStandardModels [] d e).POISSONNEURON]?).map
        (fun r => (r.varNames, r.pNames, r.dpNames, r.thresholdConditionCode))
      = some (["V", "seed", "spikeTime"], ["therate", "trefract", "Vspike", "Vrest"],
          [], "$(V) >= $(Vspike)") ∧
    ((prepareStandardModels [] d e).nModels[(prepareStandardModels [] d e).TRAUBMILES_FAST]?).map
        (fun r => (r.varNames, r.pNames, r.dpNames, r.thresholdConditionCode))
      = some (["V", "m", "h", "n"], ["gNa", "ENa", "gK", "EK", "gl", "El", "C"],
          [], "$(V) > 0.0") ∧
    ((prepareStandardModels [] d e).nModels[(prepareStandardModels [] d e).TRAUBMILES_ALTERNATIVE]?).map
        (fun r => (r.varNames, r.pNames, r.dpNames, r.thresholdConditionCode))
      = some (["V", "m", "h", "n"], ["gNa", "ENa", "gK", "EK", "gl", "El", "C"],
          [], "$(V) > 0") ∧
    ((prepareStandardModels [] d e).nModels[(prepareStandardModels [] d e).TRAUBMILES_SAFE]?).map
        (fun r => (r.varNames, r.pNames, r.dpNames, r.thresholdConditionCode))
      = some (["V", "m", "h", "n"], ["gNa", "ENa", "gK", "EK", "gl", "El", "C"],
          [], "$(V) > 0.0") ∧
    ((prepareStandardModels [] d e).nModels[(prepareStandardModels [] d e).TRAUBMILES_PSTEP]?).map
        (fun r => (r.varNames, r.pNames, r.dpNames, r.thresholdConditionCode))
      = some (["V", "m", "h", "n"], ["gNa", "ENa", "gK", "EK", "gl", "El", "C", "ntimes"],
          [], "$(V) > 0.0") ∧
    ((prepareStandardModels [] d e).nModels[(prepareStandardModels [] d e).IZHIKEVICH]?).map
        (fun r => (r.varNames, r.pNames, r.dpNames, r.thresholdConditionCode))
      = some (["V", "U"], ["a", "b", "c", "d"],
          [], "$(V) >= 29.99") ∧
    ((prepareStandardModels [] d e).nModels[(prepareStandardModels [] d e).IZHIKEVICH_V]?).map
        (fun r => (r.varNames, r.pNames, r.dpNames, r.thresholdConditionCode))
      = some (["V", "U", "a", "b", "c", "d"], [],
          [], "$(V) > 29.99") ∧
    ((prepareStandardModels [] d e).nModels[(prepareStandardModels [] d e).SPIKESOURCE]?).map
        (fun r => (r.varNames, r.pNames, r.dpNames, r.thresholdConditionCode))
      = some ([], [],
          [], "0") ∧
    ((prepareStandardModels [] d e).nModels[(prepareStandardModels [] d e).TRAUBMILES_FAST]?).map
        (fun r => (occursIn "SCALAR_MIN" r.simCode, occursIn "if (lV == -52.0) _a= 1.28;" r.simCode,
          occursIn "mt < 25" r.simCode, occursIn "mt < $(ntimes)" r.simCode))
      = some (false, false, true, false) ∧
    ((prepareStandardModels [] d e).nModels[(prepareStandardModels [] d e).TRAUBMILES_ALTERNATIVE]?).map
        (fun r => (occursIn "SCALAR_MIN" r.simCode, occursIn "if (lV == -52.0) _a= 1.28;" r.simCode,
          occursIn "mt < 25" r.simCode, occursIn "mt < $(ntimes)" r.simCode))
      = some (true, false, true, false) ∧
    ((prepareStandardModels [] d e).nModels[(prepareStandardModels [] d e).TRAUBMILES_SAFE]?).map
        (fun r => (occursIn "SCALAR_MIN" r.simCode, occursIn "if (lV == -52.0) _a= 1.28;" r.simCode,
          occursIn "mt < 25" r.simCode, occursIn "mt < $(ntimes)" r.simCode))
      = some (false, true, true, false) ∧
    ((prepareStandardModels [] d e).nModels[(prepareStandardModels [] d e).TRAUBMILES_PSTEP]?).map
        (fun r => (occursIn "SCALAR_MIN" r.simCode, occursIn "if (lV == -52.0) _a= 1.28;" r.simCode,
          occursIn "mt < 25" r.simCode, occursIn "mt < $(ntimes)" r.simCode))
      = some (false, true, false, true) ∧
    ((prepareStandardModels [] d e).nModels[(prepareStandardModels [] d e).SPIKESOURCE]?).map (fun r => r.simCode) = some "" ∧
    ((preparePostSynModels [] dp ep).postSynModels[(preparePostSynModels [] dp ep).EXPDECAY]?).map
        (fun r => (r.varNames, r.pNames, r.dpNames, r.postSynDecay, r.postSyntoCurrent))
      = some ([], ["tau", "E"], ["expDecay"], "$(inSyn)*=$(expDecay);\n", "$(inSyn)*($(E)-$(V))") ∧
    ((preparePostSynModels [] dp ep).postSynModels[(preparePostSynModels [] dp ep).IZHIKEVICH_PS]?).map
        (fun r => (r.varNames, r.pNames, r.dpNames, r.postSynDecay, r.postSyntoCurrent))
      = some ([], [], [], "", "$(inSyn); $(inSyn)= 0") ∧
    ((prepareWeightUpdateModels [] dw x y ew).weightUpdateModels[(prepareWeightUpdateModels [] dw x y ew).NSYNAPSE]?).map
        (fun r => (r.varNames, r.pNames, r.dpNames, r.simCode, r.simCodeEvnt, r.evntThreshold,
          r.simLearnPost))
      = some (["g"], [], [], "  $(addtoinSyn) = $(g);\n  $(updatelinsyn);\n", "", "", "") ∧
    ((prepareWeightUpdateModels [] dw x y ew).weightUpdateModels[(prepareWeightUpdateModels [] dw x y ew).NGRADSYNAPSE]?).map
        (fun r => (r.varNames, r.pNames, r.dpNames, r.simCode, r.evntThreshold, r.simLearnPost))
      = some (["g"], ["Epre", "Vslope"], [], "", "$(V_pre) > $(Epre)", "") ∧
    ((prepareWeightUpdateModels [] dw x y ew).weightUpdateModels[(prepareWeightUpdateModels [] dw x y ew).LEARN1SYNAPSE]?).map
        (fun r => (r.varNames, r.pNames, r.dpNames, r.dps, r.needPreSt, r.needPostSt))
      = some (["g", "gRaw"],
          ["tLrn", "tChng", "tDecay", "tPunish10", "tPunish01", "gMax", "gMid", "gSlope",
            "tauShift", "gSyn0"],
          ["lim0", "lim1", "slope0", "slope1", "off0", "off1", "off2"],
          some dpclass.pwSTDP, true, true) := by
  obtain ⟨n0, n1, n2, n3, n4, n4b, n5, n6, n7, n8⟩ := prepareStandardModels_handles [] d e
  have p0 := preparePostSynModels_EXPDECAY [] dp ep
  have p1 := preparePostSynModels_IZHIKEVICH_PS [] dp ep
  obtain ⟨w0, w1, w2⟩ := prepareWeightUpdateModels_handles [] dw x y ew
  have hn := fun k hk => prepareStandardModels_getElem? [] d e k hk
  have hp := fun k hk => preparePostSynModels_getElem? [] dp ep k hk
  have hw := fun k hk => prepareWeightUpdateModels_getElem? [] dw x y ew k hk
  rw [n0, n1, n2, n3, n4, n4b, n5, n6, n7, n8, p0, p1, w0, w1, w2,
    hn 0 (by decide), hn 1 (by decide), hn 2 (by decide), hn 3 (by decide), hn 4 (by decide),
    hn 5 (by decide), hn 6 (by decide), hn 7 (by decide), hn 8 (by decide),
    hp 0 (by decide), hp 1 (by decide), hw 0 (by decide), hw 1 (by decide), hw 2 (by decide)]
  refine ⟨rfl, rfl, rfl, rfl, rfl, rfl, rfl, rfl, rfl, rfl, rfl, rfl, ?_, ?_, ?_, ?_, rfl,
    rfl, rfl, rfl, rfl, rfl⟩ <;> rfl

/-- C9: the records appended by each bootstrap function (the nine, two and
three records placed between the records present on entry and those of the
user extension) all have as many variable names as variable types, and each
neuron record has as many extra global kernel parameter names as types. -/
theorem bootstrap_records_lengths (gn : vector neuronModel) (d : Option dpclass)
    (en : List neuronModel) (gp : vector postSynModel) (dp : Option dpclass)
    (ep : List postSynModel) (gw : vector weightUpdateModel) (dw : Option dpclass)
    (x y : Bool) (ew : List weightUpdateModel) :
    (∃ std : List neuronModel,
      (prepareStandardModels gn d en).nModels = gn ++ std ++ en ∧ std.length = 9 ∧
      ∀ r ∈ std, r.varNames.size = r.varTypes.size ∧
        r.extraGlobalNeuronKernelParameters.size
          = r.extraGlobalNeuronKernelParameterTypes.size) ∧
    (∃ std : List postSynModel,
      (preparePostSynModels gp dp ep).postSynModels = gp ++ std ++ ep ∧ std.length = 2 ∧
      ∀ r ∈ std, r.varNames.size = r.varTypes.size) ∧
    (∃ std : List weightUpdateModel,
      (prepareWeightUpdateModels gw dw x y ew).weightUpdateModels = gw ++ std ++ ew ∧
      std.length = 3 ∧
      ∀ r ∈ std, r.varNames.size = r.varTypes.size) := by
  refine ⟨⟨_, prepareStandardModels_nModels gn d en, rfl, ?_⟩,
    ⟨_, preparePostSynModels_postSynModels gp dp ep, rfl, ?_⟩,
    ⟨_, prepareWeightUpdateModels_weightUpdateModels gw dw x y ew, rfl, ?_⟩⟩
  · simp [prepareStandardModels, extra_neurons, vector.push_back, vector.size, vector.clear,
      Id.run]
  · simp [preparePostSynModels, extra_postsynapses, vector.push_back, vector.size,
      vector.clear, Id.run]
  · simp [prepareWeightUpdateModels, extra_weightupdates, vector.push_back, vector.size,
      vector.clear, Id.run]

/-- C10, evaluated on the code: whatever the start state, the record that
`preparePostSynModels` registers under `IZHIKEVICH_PS` has an empty list of
derived-parameter names and still carries the strategy `expDecayDp` left in the
reused object by the exponential-decay record, while that strategy computes a
derived parameter at index 0. -/
theorem preparePostSynModels_IZHIKEVICH_PS_keeps_dps (g : vector postSynModel)
    (d : Option dpclass) (e : List postSynModel) :
    ((preparePostSynModels g d e).postSynModels[
        (preparePostSynModels g d e).IZHIKEVICH_PS]?).map (fun r => (r.dpNames, r.dps))
      = some ([], some dpclass.expDecayDp) ∧
    expDecayDp.calculateDerivedParameter Real.exp 0 [10, 0] 1 = some (Real.exp (-1 / 10)) := by
  constructor
  · rw [preparePostSynModels_IZHIKEVICH_PS, preparePostSynModels_getElem? g d e 1 (by decide)]
    rfl
  · simp [expDecayDp.calculateDerivedParameter, expDecayDp.expDecay]

/-! ## Registration and lookup -/

/-- C11, as the spec states it, fails: the record `inconsistentRecord` (one
variable name, no variable type, strategy `rulkovdp` without parameters) is
stored by `push_back` on the empty catalog, which does not stay unchanged; and
appended behind the standard models it is found at handle 9. -/
theorem registration_inconsistent_record_stored :
    inconsistentRecord.varNames.size ≠ inconsistentRecord.varTypes.size ∧
    vector.push_back [] inconsistentRecord ≠ [] ∧
    (vector.push_back [] inconsistentRecord)[0]? = some inconsistentRecord ∧
    (prepareStandardModels [] none [inconsistentRecord]).nModels[9]?
      = some inconsistentRecord := by
  refine ⟨by decide, by decide, rfl, ?_⟩
  rw [prepareStandardModels_nModels, List.nil_append,
    List.getElem?_append_right (by rw [prepareStandardModels_length]),
    prepareStandardModels_length]
  rfl

/-- C11, amended: registration performs no check.  For every catalog of neuron
records and every record whose variable names and types differ in number, or
whose parameter count differs from the arity `arity s` expected for its
strategy `s` (whatever that arity is), `push_back` appends the record: the size
grows by one, the record is stored at the new handle, the catalog has changed,
and the earlier records are unchanged. -/
theorem registration_unchecked (arity : dpclass → Nat) (cat : vector neuronModel)
    (r : neuronModel)
    (_h : r.varNames.size ≠ r.varTypes.size ∨
      ∃ s, r.dps = some s ∧ r.pNames.size ≠ arity s) :
    (cat.push_back r).size = cat.size + 1 ∧
    (cat.push_back r)[cat.size]? = some r ∧
    cat.push_back r ≠ cat ∧
    (cat.push_back r).take cat.size = cat := by
  refine ⟨?_, ?_, ?_, ?_⟩
  · simp [vector.push_back, vector.size]
  · simp [vector.push_back, vector.size]
  · intro hEq
    have hlen := congrArg List.length hEq
    simp [vector.push_back] at hlen
  · simp [vector.push_back, vector.size]

/-- C11, amended, at `inconsistentRecord` on the empty catalog, with arity 3
expected for every strategy. -/
theorem registration_unchecked_witness :
    (vector.push_back [] inconsistentRecord).size = vector.size ([] : vector neuronModel) + 1 ∧
    (vector.push_back [] inconsistentRecord)[vector.size ([] : vector neuronModel)]?
      = some inconsistentRecord ∧
    vector.push_back [] inconsistentRecord ≠ [] ∧
    (vector.push_back [] inconsistentRecord).take (vector.size ([] : vector neuronModel))
      = [] :=
  registration_unchecked (fun _ => 3) [] inconsistentRecord (Or.inl (by decide))

/-- C12: a lookup with a handle greater than or equal to the current size of
the catalog yields the error `unknownHandle` and no record. -/
theorem get_unknown_handle {ρ : Type} (catalog : vector ρ) (handle : Nat)
    (h : catalog.size ≤ handle) :
    ModelCatalog.get catalog handle = Except.error CatalogError.unknownHandle := by
  have hnone : catalog[handle]? = none := List.getElem?_eq_none h
  simp [ModelCatalog.get, hnone]

/-- C12 at the three catalogs filled from empty, without user extensions: the
handles 9, 2 and 3 are the first that were never assigned. -/
theorem get_unknown_handle_witness :
    ModelCatalog.get (prepareStandardModels [] none []).nModels 9
      = Except.error CatalogError.unknownHandle ∧
    ModelCatalog.get (preparePostSynModels [] none []).postSynModels 2
      = Except.error CatalogError.unknownHandle ∧
    ModelCatalog.get (prepareWeightUpdateModels [] none false false []).weightUpdateModels 3
      = Except.error CatalogError.unknownHandle :=
  ⟨get_unknown_handle _ 9 (by decide), get_unknown_handle _ 2 (by decide),
   get_unknown_handle _ 3 (by decide)⟩

/-! ## Referential transparency of the strategies -/

/-- Run in any program state, `rulkovdp::calculateDerivedParameter` returns the
value of the state-free embedding and the state it was started in. -/
theorem rulkovdp_calculateDerivedParameterM_run {α : Type} [Field α] (index : Int)
    (pars : List α) (dt : α) (σ : ProgramState) :
    (rulkovdp.calculateDerivedParameterM index pars dt).run σ
      = (rulkovdp.calculateDerivedParameter index pars dt).map (fun r => (r, σ)) := by
  unfold rulkovdp.calculateDerivedParameterM rulkovdp.calculateDerivedParameter
  split_ifs
  · simp only [rulkovdp.ip0M, rulkovdp.ip0, StateT.run_bind, StateT.run_pure,
      StateT.run_monadLift]
    cases pars[0]? <;> cases pars[1]? <;> rfl
  · simp only [rulkovdp.ip1M, rulkovdp.ip1, StateT.run_bind, StateT.run_pure,
      StateT.run_monadLift]
    cases pars[0]? <;> cases pars[2]? <;> rfl
  · simp only [rulkovdp.ip2M, rulkovdp.ip2, StateT.run_bind, StateT.run_pure,
      StateT.run_monadLift]
    cases pars[0]? <;> cases pars[1]? <;> cases pars[2]? <;> rfl
  · rfl

/-- Run in any program state, `expDecayDp::calculateDerivedParameter` returns the
value of the state-free embedding and the state it was started in. -/
theorem expDecayDp_calculateDerivedParameterM_run {α : Type} [Field α] (exp : α → α)
    (index : Int) (pars : List α) (dt : α) (σ : ProgramState) :
    (expDecayDp.calculateDerivedParameterM exp index pars dt).run σ
      = (expDecayDp.calculateDerivedParameter exp index pars dt).map (fun r => (r, σ)) := by
  unfold expDecayDp.calculateDerivedParameterM expDecayDp.calculateDerivedParameter
  split_ifs
  · simp only [expDecayDp.expDecayM, expDecayDp.expDecay, StateT.run_bind, StateT.run_pure,
      StateT.run_monadLift]
    cases pars[0]? <;> rfl
  · rfl

/-- Run in any program state, `pwSTDP::calculateDerivedParameter` returns the
value of the state-free embedding and the state it was started in. -/
theorem pwSTDP_calculateDerivedParameterM_run {α : Type} [Field α] (index : Int)
    (pars : List α) (dt : α) (σ : ProgramState) :
    (pwSTDP.calculateDerivedParameterM index pars dt).run σ
      = (pwSTDP.calculateDerivedParameter index pars dt).map (fun r => (r, σ)) := by
  unfold pwSTDP.calculateDerivedParameterM pwSTDP.calculateDerivedParameter
  split_ifs
  · simp only [pwSTDP.lim0M, pwSTDP.lim0, StateT.run_bind, StateT.run_pure,
      StateT.run_monadLift]
    cases pars[4]? <;> cases pars[1]? <;> cases pars[0]? <;> rfl
  · simp only [pwSTDP.lim1M, pwSTDP.lim1, StateT.run_bind, StateT.run_pure,
      StateT.run_monadLift]
    cases pars[3]? <;> cases pars[1]? <;> cases pars[0]? <;> rfl
  · simp only [pwSTDP.slope0M, pwSTDP.slope0, StateT.run_bind, StateT.run_pure,
      StateT.run_monadLift]
    cases pars[5]? <;> cases pars[1]? <;> cases pars[0]? <;> rfl
  · simp only [pwSTDP.slope1M, pwSTDP.slope1, pwSTDP.slope0M, pwSTDP.slope0,
      StateT.run_bind, StateT.run_pure, StateT.run_monadLift]
    cases pars[5]? <;> cases pars[1]? <;> cases pars[0]? <;> rfl
  · simp only [pwSTDP.off0M, pwSTDP.off0, StateT.run_bind, StateT.run_pure,
      StateT.run_monadLift]
    cases pars[5]? <;> cases pars[4]? <;> rfl
  · simp only [pwSTDP.off1M, pwSTDP.off1, StateT.run_bind, StateT.run_pure,
      StateT.run_monadLift]
    cases pars[5]? <;> cases pars[1]? <;> rfl
  · simp only [pwSTDP.off2M, pwSTDP.off2, StateT.run_bind, StateT.run_pure,
      StateT.run_monadLift]
    cases pars[5]? <;> cases pars[3]? <;> rfl
  · rfl

/-- C13: a call of `calculateDerivedParameter` of any of the three strategies,
run in an arbitrary program state `σ` (the global model vectors and handle
variables), returns the value that the index, the parameter vector and `dt`
alone determine and leaves the state as it was: it reads and modifies no state
besides its arguments.  Hence two calls with the same index, parameters and
`dt` return equal results from any two states `σ`, `σ'`, and a second call
right after a first one returns what the first returned. -/
theorem calculateDerivedParameter_referentially_transparent {α : Type} [Field α]
    (exp : α → α) (d : dpclass) (index : Int) (pars : List α) (dt : α)
    (σ σ' : ProgramState) :
    (d.calculateDerivedParameterM exp index pars dt).run σ
      = (d.calculateDerivedParameter exp index pars dt).map (fun r => (r, σ)) ∧
    ((d.calculateDerivedParameterM exp index pars dt).run σ).map Prod.fst
      = ((d.calculateDerivedParameterM exp index pars dt).run σ').map Prod.fst ∧
    ((d.calculateDerivedParameterM exp index pars dt).run σ).map Prod.snd
      = ((d.calculateDerivedParameterM exp index pars dt).run σ).map (fun _ => σ) ∧
    (do
        let first ← d.calculateDerivedParameterM exp index pars dt
        let second ← d.calculateDerivedParameterM exp index pars dt
        pure (first, second)).run σ
      = ((d.calculateDerivedParameterM exp index pars dt).run σ).map
          (fun r => ((r.1, r.1), σ)) := by
  have key : ∀ τ : ProgramState, (d.calculateDerivedParameterM exp index pars dt).run τ
      = (d.calculateDerivedParameter exp index pars dt).map (fun r => (r, τ)) := by
    intro τ
    cases d
    · exact rulkovdp_calculateDerivedParameterM_run index pars dt τ
    · exact expDecayDp_calculateDerivedParameterM_run exp index pars dt τ
    · exact pwSTDP_calculateDerivedParameterM_run index pars dt τ
  refine ⟨key σ, ?_, ?_, ?_⟩
  · rw [key σ, key σ']
    cases d.calculateDerivedParameter exp index pars dt <;> rfl
  · rw [key σ]
    cases d.calculateDerivedParameter exp index pars dt <;> rfl
  · simp only [StateT.run_bind, StateT.run_pure, key]
    cases d.calculateDerivedParameter exp index pars dt <;> simp [key]

/-! ## Threshold conditions and sim code -/

/-- C14: the Rulkov record registered under `MAPNEURON` has the threshold code
`$(V) >= $(ip2)`; this condition holds exactly when `V ≥ ip2`, and in
particular it holds when `V` equals `ip2`. -/
theorem MAPNEURON_threshold_inclusive {α : Type} [LinearOrderedField α] (V ip2 : α) :
    (∀ (g : vector neuronModel) (d : Option dpclass) (e : List neuronModel),
      ((prepareStandardModels g d e).nModels[(prepareStandardModels g d e).MAPNEURON]?).map
          (fun r => r.thresholdConditionCode) = some "$(V) >= $(ip2)") ∧
    (MAPNEURON.thresholdConditionCode V ip2 = true ↔ V ≥ ip2) ∧
    MAPNEURON.thresholdConditionCode ip2 ip2 = true := by
  refine ⟨?_, ?_, ?_⟩
  · intro g d e
    rw [prepareStandardModels_MAPNEURON, prepareStandardModels_getElem? g d e 0 (by decide)]
    rfl
  · simp [MAPNEURON.thresholdConditionCode]
  · simp [MAPNEURON.thresholdConditionCode]

/-- C15: the record registered under `MAPNEURON` has the sim code embedded as
`MAPNEURON.simCode`, and one step of it maps `(V, preV)` to `(V', preV')` with
`preV' = V` in every branch, `V' = ip0/(Vspike - V - beta*Isyn) + ip1` (with
the old `V`) when `V ≤ 0`, `V' = ip2` when `V > 0`, `V < ip2` and `preV ≤ 0`,
and `V' = -Vspike` otherwise. -/
theorem MAPNEURON_simCode_step {α : Type} [LinearOrderedField α]
    (ip0 ip1 ip2 Vspike beta Isyn : α) (s : MAPNEURON.State α) :
    (∀ (g : vector neuronModel) (d : Option dpclass) (e : List neuronModel),
      ((prepareStandardModels g d e).nModels[(prepareStandardModels g d e).MAPNEURON]?).map
          (fun r => r.simCode)
        = some "    if ($(V) <= 0) \x7b\n      $(preV)= $(V);\n      $(V)= $(ip0)/(($(Vspike)) - $(V) - ($(beta))*$(Isyn)) +($(ip1));\n    \x7d\n    else \x7b\n      if (($(V) < $(ip2)) && ($(preV) <= 0)) \x7b\n        $(preV)= $(V);\n        $(V)= $(ip2);\n      \x7d\n      else \x7b\n        $(preV)= $(V);\n        $(V)= -($(Vspike));\n      \x7d\n    \x7d\n") ∧
    (MAPNEURON.simCode ip0 ip1 ip2 Vspike beta Isyn s).preV = s.V ∧
    (s.V ≤ 0 →
      (MAPNEURON.simCode ip0 ip1 ip2 Vspike beta Isyn s).V
        = ip0 / (Vspike - s.V - beta * Isyn) + ip1) ∧
    (0 < s.V → s.V < ip2 → s.preV ≤ 0 →
      (MAPNEURON.simCode ip0 ip1 ip2 Vspike beta Isyn s).V = ip2) ∧
    (0 < s.V → ¬ (s.V < ip2 ∧ s.preV ≤ 0) →
      (MAPNEURON.simCode ip0 ip1 ip2 Vspike beta Isyn s).V = -Vspike) := by
  refine ⟨?_, ?_, ?_, ?_, ?_⟩
  · intro g d e
    rw [prepareStandardModels_MAPNEURON, prepareStandardModels_getElem? g d e 0 (by decide)]
    rfl
  · simp only [MAPNEURON.simCode, Id.run, pure, bind]
    split_ifs <;> rfl
  · intro h
    simp [MAPNEURON.simCode, Id.run, h]
  · intro h0 h1 h2
    simp [MAPNEURON.simCode, Id.run, not_le.mpr h0, h1, h2]
  · intro h0 h
    have hc : ¬ (s.V < ip2 ∧ s.preV ≤ 0) := h
    by_cases h1 : s.V < ip2
    · have h2 : ¬ s.preV ≤ 0 := fun h2 => hc ⟨h1, h2⟩
      simp [MAPNEURON.simCode, Id.run, not_le.mpr h0, h1, h2]
    · simp [MAPNEURON.simCode, Id.run, not_le.mpr h0, h1]

/-- C15 over the rationals, with `ip0 = 2`, `ip1 = 3`, `ip2 = 5`, `Vspike = 1`,
`beta = 1`, `Isyn = 0`: from `(V, preV) = (-1, 0)` the step gives `V' = 4`, from
`(1, 0)` it gives `V' = 5`, and from `(6, 0)` it gives `V' = -1`. -/
theorem MAPNEURON_simCode_step_witness :
    (MAPNEURON.simCode (2 : ℚ) 3 5 1 1 0 ⟨-1, 0⟩).V = 2 / (1 - (-1) - 1 * 0) + 3 ∧
    (MAPNEURON.simCode (2 : ℚ) 3 5 1 1 0 ⟨1, 0⟩).V = 5 ∧
    (MAPNEURON.simCode (2 : ℚ) 3 5 1 1 0 ⟨6, 0⟩).V = -1 :=
  ⟨(MAPNEURON_simCode_step (2 : ℚ) 3 5 1 1 0 ⟨-1, 0⟩).2.2.1 (by norm_num),
   (MAPNEURON_simCode_step (2 : ℚ) 3 5 1 1 0 ⟨1, 0⟩).2.2.2.1 (by norm_num) (by norm_num)
     (by norm_num),
   (MAPNEURON_simCode_step (2 : ℚ) 3 5 1 1 0 ⟨6, 0⟩).2.2.2.2 (by norm_num) (by norm_num)⟩

/-- C16, evaluated on the code: the record registered under `IZHIKEVICH` has the
threshold code `$(V) >= 29.99` and the one under `IZHIKEVICH_V` has
`$(V) > 29.99`; at `V = 29.99` the first condition holds and the second does
not, the second holding exactly when `V > 29.99`. -/
theorem IZHIKEVICH_V_threshold_strict :
    (∀ (g : vector neuronModel) (d : Option dpclass) (e : List neuronModel),
      ((prepareStandardModels g d e).nModels[(prepareStandardModels g d e).IZHIKEVICH]?).map
          (fun r => r.thresholdConditionCode) = some "$(V) >= 29.99" ∧
      ((prepareStandardModels g d e).nModels[(prepareStandardModels g d e).IZHIKEVICH_V]?).map
          (fun r => r.thresholdConditionCode) = some "$(V) > 29.99") ∧
    IZHIKEVICH.thresholdConditionCode (29.99 : ℚ) = true ∧
    IZHIKEVICH_V.thresholdConditionCode (29.99 : ℚ) = false ∧
    (∀ V : ℚ, IZHIKEVICH_V.thresholdConditionCode V = true ↔ V > 29.99) := by
  refine ⟨?_, ?_, ?_, ?_⟩
  · intro g d e
    obtain ⟨-, -, -, -, -, -, -, h6, h7, -⟩ := prepareStandardModels_handles g d e
    rw [h6, h7, prepareStandardModels_getElem? g d e 6 (by decide),
      prepareStandardModels_getElem? g d e 7 (by decide)]
    exact ⟨rfl, rfl⟩
  · simp [IZHIKEVICH.thresholdConditionCode]
  · simp [IZHIKEVICH_V.thresholdConditionCode]
  · intro V
    simp [IZHIKEVICH_V.thresholdConditionCode]

/-! ## Weight-update models -/

set_option maxRecDepth 100000 in
/-- C19: for every start state, the record registered under `LEARN1SYNAPSE`
has `needPreSt` and `needPostSt` set to true, its presynaptic code mentions
`sT_post` and its postsynaptic learning code mentions `sT_pre`; no code
fragment of the records under `NSYNAPSE` and `NGRADSYNAPSE` mentions `sT_pre`
or `sT_post`, and the two flags of these records are the values `x`, `y` left
by the default construction, which the function never assigns. -/
theorem weightUpdate_timestamp_flags (g : vector weightUpdateModel) (d : Option dpclass)
    (x y : Bool) (e : List weightUpdateModel) :
    ((prepareWeightUpdateModels g d x y e).weightUpdateModels[
        (prepareWeightUpdateModels g d x y e).LEARN1SYNAPSE]?).map
        (fun r => (r.needPreSt, r.needPostSt, occursIn "sT_post" r.simCode,
          occursIn "sT_pre" r.simLearnPost))
      = some (true, true, true, true) ∧
    ((prepareWeightUpdateModels g d x y e).weightUpdateModels[
        (prepareWeightUpdateModels g d x y e).NSYNAPSE]?).map
        (fun r => (r.references "sT_pre", r.references "sT_post", r.needPreSt, r.needPostSt))
      = some (false, false, x, y) ∧
    ((prepareWeightUpdateModels g d x y e).weightUpdateModels[
        (prepareWeightUpdateModels g d x y e).NGRADSYNAPSE]?).map
        (fun r => (r.references "sT_pre", r.references "sT_post", r.needPreSt, r.needPostSt))
      = some (false, false, x, y) := by
  obtain ⟨h0, h1, h2⟩ := prepareWeightUpdateModels_handles g d x y e
  rw [h0, h1, h2, prepareWeightUpdateModels_getElem? g d x y e 0 (by decide),
    prepareWeightUpdateModels_getElem? g d x y e 1 (by decide),
    prepareWeightUpdateModels_getElem? g d x y e 2 (by decide)]
  exact ⟨rfl, rfl, rfl⟩

/-- C20: the record registered under `NGRADSYNAPSE` has the event threshold
`$(V_pre) > $(Epre)`, which holds exactly when `V_pre > Epre`; and for all
values of `g`, `V_pre`, `Epre`, `Vslope`, `DT` (and whatever function `tanh`
is) its event code adds `max(0, g*tanh((V_pre - Epre)/Vslope)*DT)` to the
accumulated input, an amount that is never negative. -/
theorem NGRADSYNAPSE_event_amount {α : Type} [LinearOrderedField α] (tanh : α → α)
    (g V_pre Epre Vslope DT : α) (s : NGRADSYNAPSE.State α) :
    (∀ (c : vector weightUpdateModel) (d : Option dpclass) (x y : Bool)
        (e : List weightUpdateModel),
      ((prepareWeightUpdateModels c d x y e).weightUpdateModels[
          (prepareWeightUpdateModels c d x y e).NGRADSYNAPSE]?).map
          (fun r => (r.evntThreshold, r.simCodeEvnt))
        = some ("$(V_pre) > $(Epre)", "$(addtoinSyn) = $(g) * tanh(($(V_pre) - $(Epre)) / $(Vslope))* DT;\n    if ($(addtoinSyn) < 0) $(addtoinSyn) = 0.0;\n    $(updatelinsyn);\n")) ∧
    (NGRADSYNAPSE.evntThreshold V_pre Epre = true ↔ V_pre > Epre) ∧
    (NGRADSYNAPSE.simCodeEvnt tanh g V_pre Epre Vslope DT s).inSyn
      = s.inSyn + max 0 (g * tanh ((V_pre - Epre) / Vslope) * DT) ∧
    (NGRADSYNAPSE.simCodeEvnt tanh g V_pre Epre Vslope DT s).addtoinSyn
      = max 0 (g * tanh ((V_pre - Epre) / Vslope) * DT) ∧
    0 ≤ (NGRADSYNAPSE.simCodeEvnt tanh g V_pre Epre Vslope DT s).inSyn - s.inSyn := by
  have key : (NGRADSYNAPSE.simCodeEvnt tanh g V_pre Epre Vslope DT s)
      = ⟨max 0 (g * tanh ((V_pre - Epre) / Vslope) * DT),
          s.inSyn + max 0 (g * tanh ((V_pre - Epre) / Vslope) * DT)⟩ := by
    by_cases h : g * tanh ((V_pre - Epre) / Vslope) * DT < 0
    · simp [NGRADSYNAPSE.simCodeEvnt, NGRADSYNAPSE.updatelinsyn, Id.run, h,
        max_eq_left (le_of_lt h)]
      norm_num
    · simp [NGRADSYNAPSE.simCodeEvnt, NGRADSYNAPSE.updatelinsyn, Id.run, h,
        max_eq_right (not_lt.mp h)]
  refine ⟨?_, ?_, ?_, ?_, ?_⟩
  · intro c d x y e
    obtain ⟨-, h1, -⟩ := prepareWeightUpdateModels_handles c d x y e
    rw [h1, prepareWeightUpdateModels_getElem? c d x y e 1 (by decide)]
    rfl
  · simp [NGRADSYNAPSE.evntThreshold]
  · rw [key]
  · rw [key]
  · rw [key]
    simp

/-! ## The Traub-Miles variants `TRAUBMILES_SAFE` and `TRAUBMILES_PSTEP` -/

/-- The quotient `a*u/(exp(u/c) - 1)` tends to `a*c` as `u` tends to 0. -/
theorem rate_tendsto_zero (a c : ℝ) (hc : c ≠ 0) :
    Filter.Tendsto (fun u : ℝ => a * u / (Real.exp (u / c) - 1))
      (nhdsWithin (0 : ℝ) {(0 : ℝ)}ᶜ) (nhds (a * c)) := by
  have hd : HasDerivAt (fun u : ℝ => Real.exp (u / c)) (1 / c) 0 := by
    have h1 : HasDerivAt (fun u : ℝ => u / c) (1 / c) 0 := by
      simpa using (hasDerivAt_id (0 : ℝ)).div_const c
    have h2 := (Real.hasDerivAt_exp ((0 : ℝ) / c)).comp 0 h1
    simpa using h2
  have hs := hasDerivAt_iff_tendsto_slope.mp hd
  have hne : (1 / c : ℝ) ≠ 0 := one_div_ne_zero hc
  have hinv := (hs.inv₀ hne).const_mul a
  have hval : a * (1 / c)⁻¹ = a * c := by
    rw [one_div, inv_inv]
  rw [hval] at hinv
  refine hinv.congr (fun u => ?_)
  simp only [slope, vsub_eq_sub, smul_eq_mul, sub_zero, zero_div, Real.exp_zero, mul_inv,
    inv_inv]
  rw [div_eq_mul_inv, div_eq_mul_inv, mul_assoc]

theorem sub_tendsto_punctured (v : ℝ) :
    Filter.Tendsto (fun V : ℝ => v - V) (nhdsWithin v {v}ᶜ)
      (nhdsWithin (0 : ℝ) {(0 : ℝ)}ᶜ) := by
  refine tendsto_nhdsWithin_of_tendsto_nhds_of_eventually_within _ ?_ ?_
  · have h : Filter.Tendsto (fun V : ℝ => v - V) (nhds v) (nhds (v - v)) :=
      (continuous_const.sub continuous_id).tendsto v
    rw [sub_self] at h
    exact h.mono_left nhdsWithin_le_nhds
  · filter_upwards [self_mem_nhdsWithin] with V hV
    simp only [Set.mem_compl_iff, Set.mem_singleton_iff] at hV ⊢
    intro h
    exact hV (sub_eq_zero.mp h).symm

theorem add_tendsto_punctured (w : ℝ) :
    Filter.Tendsto (fun V : ℝ => V + w) (nhdsWithin (-w) {(-w)}ᶜ)
      (nhdsWithin (0 : ℝ) {(0 : ℝ)}ᶜ) := by
  refine tendsto_nhdsWithin_of_tendsto_nhds_of_eventually_within _ ?_ ?_
  · have h : Filter.Tendsto (fun V : ℝ => V + w) (nhds (-w)) (nhds (-w + w)) :=
      (continuous_id.add continuous_const).tendsto (-w)
    rw [neg_add_cancel] at h
    exact h.mono_left nhdsWithin_le_nhds
  · filter_upwards [self_mem_nhdsWithin] with V hV
    simp only [Set.mem_compl_iff, Set.mem_singleton_iff] at hV ⊢
    intro h
    exact hV (eq_neg_of_add_eq_zero_left h)

theorem exp_sub_one_eq_zero_iff (x : ℝ) : Real.exp x - 1 = 0 ↔ x = 0 := by
  rw [sub_eq_zero, Real.exp_eq_one_iff]

set_option maxRecDepth 100000 in
/-- C17: the sim code of the record under `TRAUBMILES_SAFE` contains the three
guarded assignments embedded as `alpha_m`, `beta_m` and `alpha_n`.  Over the
reals each of them returns the substituted constant at the guarded voltage and
the rate function elsewhere; the constant is the limit of the rate function at
that voltage (1.28 at -52, 1.4 at -25, 0.16 at -50); and the denominator of
the rate function vanishes exactly at the guarded voltage. -/
theorem TRAUBMILES_SAFE_limits :
    (∀ (g : vector neuronModel) (d : Option dpclass) (e : List neuronModel),
      ((prepareStandardModels g d e).nModels[
          (prepareStandardModels g d e).TRAUBMILES_SAFE]?).map
          (fun r => (occursIn "if (lV == -52.0) _a= 1.28;\n      else _a= 0.32*(-52.0-$(V))/(exp((-52.0-$(V))/4.0)-1.0);" r.simCode,
            occursIn "if (lV == -25.0) _b= 1.4;\n      else _b= 0.28*($(V)+25.0)/(exp(($(V)+25.0)/5.0)-1.0);" r.simCode,
            occursIn "if (lV == -50.0) _a= 0.16;\n      else _a= 0.032*(-50.0-$(V))/(exp((-50.0-$(V))/5.0)-1.0);" r.simCode))
        = some (true, true, true)) ∧
    (TRAUBMILES_SAFE.alpha_m Real.exp (-52) = 1.28 ∧
      (∀ V : ℝ, V ≠ -52 → TRAUBMILES_SAFE.alpha_m Real.exp V
        = 0.32 * (-52.0 - V) / (Real.exp ((-52.0 - V) / 4.0) - 1.0)) ∧
      Filter.Tendsto
        (fun V : ℝ => 0.32 * (-52.0 - V) / (Real.exp ((-52.0 - V) / 4.0) - 1.0))
        (nhdsWithin (-52 : ℝ) {(-52 : ℝ)}ᶜ) (nhds 1.28) ∧
      (∀ V : ℝ, Real.exp ((-52.0 - V) / 4.0) - 1.0 = 0 ↔ V = -52)) ∧
    (TRAUBMILES_SAFE.beta_m Real.exp (-25) = 1.4 ∧
      (∀ V : ℝ, V ≠ -25 → TRAUBMILES_SAFE.beta_m Real.exp V
        = 0.28 * (V + 25.0) / (Real.exp ((V + 25.0) / 5.0) - 1.0)) ∧
      Filter.Tendsto
        (fun V : ℝ => 0.28 * (V + 25.0) / (Real.exp ((V + 25.0) / 5.0) - 1.0))
        (nhdsWithin (-25 : ℝ) {(-25 : ℝ)}ᶜ) (nhds 1.4) ∧
      (∀ V : ℝ, Real.exp ((V + 25.0) / 5.0) - 1.0 = 0 ↔ V = -25)) ∧
    (TRAUBMILES_SAFE.alpha_n Real.exp (-50) = 0.16 ∧
      (∀ V : ℝ, V ≠ -50 → TRAUBMILES_SAFE.alpha_n Real.exp V
        = 0.032 * (-50.0 - V) / (Real.exp ((-50.0 - V) / 5.0) - 1.0)) ∧
      Filter.Tendsto
        (fun V : ℝ => 0.032 * (-50.0 - V) / (Real.exp ((-50.0 - V) / 5.0) - 1.0))
        (nhdsWithin (-50 : ℝ) {(-50 : ℝ)}ᶜ) (nhds 0.16) ∧
      (∀ V : ℝ, Real.exp ((-50.0 - V) / 5.0) - 1.0 = 0 ↔ V = -50)) := by
  refine ⟨?_, ⟨?_, ?_, ?_, ?_⟩, ⟨?_, ?_, ?_, ?_⟩, ⟨?_, ?_, ?_, ?_⟩⟩
  · intro g d e
    obtain ⟨-, -, -, -, h4, -, -, -, -, -⟩ := prepareStandardModels_handles g d e
    rw [h4, prepareStandardModels_getElem? g d e 4 (by decide)]
    rfl
  · norm_num [TRAUBMILES_SAFE.alpha_m]
  · intro V hV
    have hV' : ¬ V = -52.0 := by norm_num; exact hV
    simp only [TRAUBMILES_SAFE.alpha_m, if_neg hV']
  · have h := (rate_tendsto_zero 0.32 4 (by norm_num)).comp (sub_tendsto_punctured (-52))
    have e : (0.32 * 4 : ℝ) = 1.28 := by norm_num
    rw [e] at h
    refine h.congr (fun V => ?_)
    simp only [Function.comp]
    norm_num
  · intro V
    have h1 : (1.0 : ℝ) = 1 := by norm_num
    rw [h1, exp_sub_one_eq_zero_iff]
    constructor
    · intro h
      norm_num at h
      linarith
    · intro h
      rw [h]
      norm_num
  · norm_num [TRAUBMILES_SAFE.beta_m]
  · intro V hV
    have hV' : ¬ V = -25.0 := by norm_num; exact hV
    simp only [TRAUBMILES_SAFE.beta_m, if_neg hV']
  · have h := (rate_tendsto_zero 0.28 5 (by norm_num)).comp (add_tendsto_punctured 25)
    have e : (0.28 * 5 : ℝ) = 1.4 := by norm_num
    rw [e] at h
    refine h.congr (fun V => ?_)
    simp only [Function.comp]
    norm_num
  · intro V
    have h1 : (1.0 : ℝ) = 1 := by norm_num
    rw [h1, exp_sub_one_eq_zero_iff]
    constructor
    · intro h
      norm_num at h
      linarith
    · intro h
      rw [h]
      norm_num
  · norm_num [TRAUBMILES_SAFE.alpha_n]
  · intro V hV
    have hV' : ¬ V = -50.0 := by norm_num; exact hV
    simp only [TRAUBMILES_SAFE.alpha_n, if_neg hV']
  · have h := (rate_tendsto_zero 0.032 5 (by norm_num)).comp (sub_tendsto_punctured (-50))
    have e : (0.032 * 5 : ℝ) = 0.16 := by norm_num
    rw [e] at h
    refine h.congr (fun V => ?_)
    simp only [Function.comp]
    norm_num
  · intro V
    have h1 : (1.0 : ℝ) = 1 := by norm_num
    rw [h1, exp_sub_one_eq_zero_iff]
    constructor
    · intro h
      norm_num at h
      linarith
    · intro h
      rw [h]
      norm_num

/-- A `for` loop whose condition holds for the counter values below `N` and
fails at `N` runs its body `N - k` times from the counter value `k`, given
enough fuel. -/
theorem forLoop_count {σ : Type} (cond : Nat → Bool) (body : σ → σ) (N : Nat)
    (hN : N < 2 ^ 32) (hlt : ∀ mt, mt < N → cond mt = true) (hend : cond N = false) :
    ∀ (fuel k : Nat) (s : σ), k ≤ N → N - k ≤ fuel →
      forLoop cond body fuel k s = some (body^[N - k] s) := by
  intro fuel
  induction fuel with
  | zero =>
    intro k s hk hf
    have hkN : k = N := by omega
    subst hkN
    simp [forLoop, hend]
  | succ f ih =>
    intro k s hk hf
    rcases Nat.eq_or_lt_of_le hk with hkN | hkN
    · subst hkN
      simp [forLoop, hend]
    · have hmod : (k + 1) % 2 ^ 32 = k + 1 := Nat.mod_eq_of_lt (by omega)
      have hstep : N - k = (N - (k + 1)) + 1 := by omega
      rw [forLoop, if_pos (hlt k hkN), hmod, ih (k + 1) (body s) (by omega) (by omega), hstep,
        Function.iterate_succ_apply]

set_option maxRecDepth 100000 in
/-- C18: for every start state the record under `TRAUBMILES_PSTEP` has the
variable names and the threshold code of the record under `TRAUBMILES_SAFE`,
its parameter names are the seven of `TRAUBMILES_SAFE` followed by `ntimes`,
and its sim code is that of `TRAUBMILES_SAFE` with `DT/25.0` replaced by
`DT/scalar($(ntimes))` and `mt < 25` by `mt < $(ntimes)`.  With `ntimes = 25`
the step of `TRAUBMILES_PSTEP` returns what the step of `TRAUBMILES_SAFE`
returns, for every state, parameters, `Isyn`, `DT` and fuel; with fuel for 25
iterations both return the state after 25 runs of the loop body with the
sub-step `DT/25`. -/
theorem TRAUBMILES_PSTEP_refines_SAFE {α : Type} [LinearOrderedField α] (exp : α → α)
    (p : TraubMilesParams α) (Isyn DT : α) (s : TraubMilesState α) (fuel : Nat) :
    (∀ (g : vector neuronModel) (d : Option dpclass) (e : List neuronModel),
      ∃ safe pstep : neuronModel,
        (prepareStandardModels g d e).nModels[
          (prepareStandardModels g d e).TRAUBMILES_SAFE]? = some safe ∧
        (prepareStandardModels g d e).nModels[
          (prepareStandardModels g d e).TRAUBMILES_PSTEP]? = some pstep ∧
        pstep.varNames = safe.varNames ∧ pstep.varTypes = safe.varTypes ∧
        pstep.thresholdConditionCode = safe.thresholdConditionCode ∧
        safe.pNames.size = 7 ∧ pstep.pNames = safe.pNames ++ ["ntimes"] ∧
        pstep.dpNames = safe.dpNames ∧ pstep.dps = safe.dps ∧
        ∃ A B C : String,
          safe.simCode = A ++ "DT/25.0" ++ B ++ "mt < 25" ++ C ∧
          pstep.simCode = A ++ "DT/scalar($(ntimes))" ++ B ++ "mt < $(ntimes)" ++ C) ∧
    (∀ V : α, TRAUBMILES_PSTEP.thresholdConditionCode V
      = TRAUBMILES_SAFE.thresholdConditionCode V) ∧
    TRAUBMILES_PSTEP.simCode exp p 25 Isyn DT fuel s
      = TRAUBMILES_SAFE.simCode exp p Isyn DT fuel s ∧
    (25 ≤ fuel →
      TRAUBMILES_SAFE.simCode exp p Isyn DT fuel s
        = some ((TRAUBMILES_SAFE.body exp p Isyn (DT / 25))^[25] s)) := by
  have hmdt : DT / 25.0 = DT / 25 := by norm_num
  have hbody : (fun s0 : TraubMilesState α => Id.run do
      let mut s := s0
      let Imem := -(s.m * s.m * s.m * s.h * p.gNa * (s.V - p.ENa) +
                    s.n * s.n * s.n * s.n * p.gK * (s.V - p.EK) +
                    p.gl * (s.V - p.El) - Isyn)
      let mut _a := 0
      if s.V = -52.0 then _a := 1.28
      else _a := 0.32 * (-52.0 - s.V) / (exp ((-52.0 - s.V) / 4.0) - 1.0)
      let mut _b := 0
      if s.V = -25.0 then _b := 1.4
      else _b := 0.28 * (s.V + 25.0) / (exp ((s.V + 25.0) / 5.0) - 1.0)
      s := { s with m := s.m + (_a * (1.0 - s.m) - _b * s.m) * (DT / 25) }
      _a := 0.128 * exp ((-48.0 - s.V) / 18.0)
      _b := 4.0 / (exp ((-25.0 - s.V) / 5.0) + 1.0)
      s := { s with h := s.h + (_a * (1.0 - s.h) - _b * s.h) * (DT / 25) }
      if s.V = -50.0 then _a := 0.16
      else _a := 0.032 * (-50.0 - s.V) / (exp ((-50.0 - s.V) / 5.0) - 1.0)
      _b := 0.5 * exp ((-55.0 - s.V) / 40.0)
      s := { s with n := s.n + (_a * (1.0 - s.n) - _b * s.n) * (DT / 25) }
      s := { s with V := s.V + Imem / p.C * (DT / 25) }
      return s) = TRAUBMILES_SAFE.body exp p Isyn (DT / 25) := by
    funext s0
    simp only [TRAUBMILES_SAFE.body, TRAUBMILES_SAFE.alpha_m, TRAUBMILES_SAFE.beta_m,
      TRAUBMILES_SAFE.alpha_n, Id.run, pure, bind]
    split_ifs <;> rfl
  have hcond : (fun mt : Nat => decide ((mt : α) < 25))
      = (fun mt : Nat => decide (mt < 25)) := by
    funext mt
    have : ((mt : α) < 25) ↔ mt < 25 := by
      rw [show (25 : α) = ((25 : Nat) : α) by norm_num, Nat.cast_lt]
    simp [this]
  refine ⟨?_, ?_, ?_, ?_⟩
  · intro g d e
    obtain ⟨-, -, -, -, h4, -, h5, -, -, -⟩ := prepareStandardModels_handles g d e
    rw [h4, h5, prepareStandardModels_getElem? g d e 4 (by decide),
      prepareStandardModels_getElem? g d e 5 (by decide)]
    exact ⟨_, _, rfl, rfl, rfl, rfl, rfl, rfl, rfl, rfl, rfl,
      "   scalar Imem;\n    unsigned int mt;\n    scalar mdt= ",
      ";\n    for (mt=0; ",
      "; mt++) \x7b\n      Imem= -($(m)*$(m)*$(m)*$(h)*$(gNa)*($(V)-($(ENa)))+\n              $(n)*$(n)*$(n)*$(n)*$(gK)*($(V)-($(EK)))+\n              $(gl)*($(V)-($(El)))-$(Isyn));\n      scalar _a;\n      if (lV == -52.0) _a= 1.28;\n      else _a= 0.32*(-52.0-$(V))/(exp((-52.0-$(V))/4.0)-1.0);\n      scalar _b;\n      if (lV == -25.0) _b= 1.4;\n      else _b= 0.28*($(V)+25.0)/(exp(($(V)+25.0)/5.0)-1.0);\n      $(m)+= (_a*(1.0-$(m))-_b*$(m))*mdt;\n      _a= 0.128*exp((-48.0-$(V))/18.0);\n      _b= 4.0 / (exp((-25.0-$(V))/5.0)+1.0);\n      $(h)+= (_a*(1.0-$(h))-_b*$(h))*mdt;\n      if (lV == -50.0) _a= 0.16;\n      else _a= 0.032*(-50.0-$(V))/(exp((-50.0-$(V))/5.0)-1.0);\n      _b= 0.5*exp((-55.0-$(V))/40.0);\n      $(n)+= (_a*(1.0-$(n))-_b*$(n))*mdt;\n      $(V)+= Imem/$(C)*mdt;\n    \x7d\n",
      rfl, rfl⟩
  · intro V
    rfl
  · show forLoop (fun mt : Nat => decide ((mt : α) < 25)) _ fuel 0 s
      = forLoop (fun mt : Nat => decide (mt < 25))
          (TRAUBMILES_SAFE.body exp p Isyn (DT / 25.0)) fuel 0 s
    rw [hcond, hmdt]
    exact congrArg (fun b => forLoop (fun mt => decide (mt < 25)) b fuel 0 s) hbody
  · intro hfuel
    show forLoop (fun mt : Nat => decide (mt < 25))
        (TRAUBMILES_SAFE.body exp p Isyn (DT / 25.0)) fuel 0 s = _
    rw [hmdt]
    exact forLoop_count (fun mt => decide (mt < 25)) _ 25 (by norm_num)
      (fun mt h => by simp [h]) (by simp) fuel 0 s (by omega) (by omega)

/-- C18 with fuel 25, over the reals, from the state `(-60, 0, 1, 0)`, with all
parameters 1, `Isyn = 0` and `DT = 1`. -/
theorem TRAUBMILES_PSTEP_refines_SAFE_witness :
    TRAUBMILES_SAFE.simCode Real.exp ⟨1, 1, 1, 1, 1, 1, 1⟩ 0 1 25 ⟨-60, 0, 1, 0⟩
      = some ((TRAUBMILES_SAFE.body Real.exp ⟨1, 1, 1, 1, 1, 1, 1⟩ 0 (1 / 25))^[25]
          ⟨-60, 0, 1, 0⟩) :=
  (TRAUBMILES_PSTEP_refines_SAFE Real.exp ⟨1, 1, 1, 1, 1, 1, 1⟩ 0 1 ⟨-60, 0, 1, 0⟩
    25).2.2.2 (by decide)

/-! ## The STDP synapse `LEARN1SYNAPSE` -/

/-- The chain of tests of the STDP code selects the pieces of `increment_spec`. -/
theorem LEARN1SYNAPSE_increment_chain {α : Type} [LinearOrderedField α]
    (v : LEARN1SYNAPSE.Values α) (x : α) :
    (if x > v.lim0 then -v.off0
      else if x > 0 then v.slope0 * x + v.off1
      else if x > v.lim1 then v.slope1 * x + v.off1
      else -v.off2) = LEARN1SYNAPSE.increment_spec v x := by
  unfold LEARN1SYNAPSE.increment_spec
  by_cases h1 : x > v.lim0
  · simp [h1]
  · have h1' : x ≤ v.lim0 := not_lt.mp h1
    by_cases h2 : x > 0
    · have h2' : 0 < x := h2
      simp [h1, h2', h1']
    · have h2' : x ≤ 0 := not_lt.mp h2
      have h2'' : ¬ 0 < x := h2
      by_cases h3 : x > v.lim1
      · have h3' : v.lim1 < x := h3
        simp [h1, h2'', h2', h3']
      · have h3' : ¬ v.lim1 < x := h3
        simp [h1, h2'', h3']

/-- The state after the presynaptic code, in closed form. -/
theorem LEARN1SYNAPSE_simCode_eq {α : Type} [LinearOrderedField α] (tanh : α → α)
    (v : LEARN1SYNAPSE.Values α) (sT_post t : α) (s : LEARN1SYNAPSE.State α) :
    LEARN1SYNAPSE.simCode tanh v sT_post t s
      = { g := LEARN1SYNAPSE.weight_spec tanh v
            (s.gRaw + LEARN1SYNAPSE.increment_spec v (sT_post - t - v.tauShift)),
          gRaw := s.gRaw + LEARN1SYNAPSE.increment_spec v (sT_post - t - v.tauShift),
          addtoinSyn := s.g,
          inSyn := s.inSyn + s.g } := by
  rw [← LEARN1SYNAPSE_increment_chain]
  simp only [LEARN1SYNAPSE.simCode, LEARN1SYNAPSE.updatelinsyn, LEARN1SYNAPSE.weight_spec,
    Id.run, pure, bind]
  split_ifs <;> rfl

/-- The state after the postsynaptic code, in closed form. -/
theorem LEARN1SYNAPSE_simLearnPost_eq {α : Type} [LinearOrderedField α] (tanh : α → α)
    (v : LEARN1SYNAPSE.Values α) (sT_pre t : α) (s : LEARN1SYNAPSE.State α) :
    LEARN1SYNAPSE.simLearnPost tanh v sT_pre t s
      = { g := LEARN1SYNAPSE.weight_spec tanh v
            (s.gRaw + LEARN1SYNAPSE.increment_spec v (t - sT_pre - v.tauShift)),
          gRaw := s.gRaw + LEARN1SYNAPSE.increment_spec v (t - sT_pre - v.tauShift),
          addtoinSyn := s.addtoinSyn,
          inSyn := s.inSyn } := by
  rw [← LEARN1SYNAPSE_increment_chain]
  have h2 : (2.0 : α) = 2 := by norm_num
  simp only [LEARN1SYNAPSE.simLearnPost, LEARN1SYNAPSE.weight_spec, Id.run, pure, bind, h2]
  split_ifs <;> rfl

/-- C21: the record registered under `LEARN1SYNAPSE` has the two code strings
embedded as `LEARN1SYNAPSE.simCode` and `LEARN1SYNAPSE.simLearnPost`.  On a
presynaptic spike `gRaw` is incremented by `f(sT_post - t - tauShift)` and on a
postsynaptic spike by `f(t - sT_pre - tauShift)`, with the same function
`f = increment_spec`; in both cases `g` is then
`gMax/2 * (tanh(gSlope*(gRaw - gMid)) + 1)` at the updated `gRaw`; the
presynaptic code also adds the old `g` to the accumulated input, which the
postsynaptic code leaves unchanged. -/
theorem LEARN1SYNAPSE_symmetric_update {α : Type} [LinearOrderedField α] (tanh : α → α)
    (v : LEARN1SYNAPSE.Values α) (sT_post sT_pre t : α) (s : LEARN1SYNAPSE.State α) :
    (∀ (c : vector weightUpdateModel) (d : Option dpclass) (x y : Bool)
        (e : List weightUpdateModel),
      ((prepareWeightUpdateModels c d x y e).weightUpdateModels[
          (prepareWeightUpdateModels c d x y e).LEARN1SYNAPSE]?).map
          (fun r => (r.simCode, r.simLearnPost))
        = some ("$(addtoinSyn) = $(g);\n  $(updatelinsyn); \n\t\t\t\t  scalar dt = $(sT_post) - $(t) - ($(tauShift)); \n\t  scalar dg = 0;\n\t\t\t\t  if (dt > $(lim0))  \n\t\t\t\t      dg = -($(off0)) ; \n\t\t\t  else if (dt > 0)  \n\t\t\t      dg = $(slope0) * dt + ($(off1)); \n  else if (dt > $(lim1))  \n\t\t\t      dg = $(slope1) * dt + ($(off1)); \n  else dg = - ($(off2)) ; \n  $(gRaw) += dg; \n  $(g)=$(gMax)/2 *(tanh($(gSlope)*($(gRaw) - ($(gMid))))+1); \n",
            "scalar dt = $(t) - ($(sT_pre)) - ($(tauShift)); \n  scalar dg =0; \n  if (dt > $(lim0))  \n      dg = -($(off0)) ; \n   else if (dt > 0)  \n      dg = $(slope0) * dt + ($(off1)); \n  else if (dt > $(lim1))  \n      dg = $(slope1) * dt + ($(off1)); \n  else dg = -($(off2)) ; \n  $(gRaw) += dg; \n  $(g)=$(gMax)/2.0 *(tanh($(gSlope)*($(gRaw) - ($(gMid))))+1); \n")) ∧
    (LEARN1SYNAPSE.simCode tanh v sT_post t s).gRaw
      = s.gRaw + LEARN1SYNAPSE.increment_spec v (sT_post - t - v.tauShift) ∧
    (LEARN1SYNAPSE.simLearnPost tanh v sT_pre t s).gRaw
      = s.gRaw + LEARN1SYNAPSE.increment_spec v (t - sT_pre - v.tauShift) ∧
    (LEARN1SYNAPSE.simCode tanh v sT_post t s).g
      = v.gMax / 2 * (tanh (v.gSlope *
          ((LEARN1SYNAPSE.simCode tanh v sT_post t s).gRaw - v.gMid)) + 1) ∧
    (LEARN1SYNAPSE.simLearnPost tanh v sT_pre t s).g
      = v.gMax / 2 * (tanh (v.gSlope *
          ((LEARN1SYNAPSE.simLearnPost tanh v sT_pre t s).gRaw - v.gMid)) + 1) ∧
    (LEARN1SYNAPSE.simCode tanh v sT_post t s).inSyn = s.inSyn + s.g ∧
    (LEARN1SYNAPSE.simLearnPost tanh v sT_pre t s).inSyn = s.inSyn := by
  refine ⟨?_, ?_, ?_, ?_, ?_, ?_, ?_⟩
  · intro c d x y e
    obtain ⟨-, -, h2⟩ := prepareWeightUpdateModels_handles c d x y e
    rw [h2, prepareWeightUpdateModels_getElem? c d x y e 2 (by decide)]
    rfl
  · rw [LEARN1SYNAPSE_simCode_eq]
  · rw [LEARN1SYNAPSE_simLearnPost_eq]
  · rw [LEARN1SYNAPSE_simCode_eq]
    rfl
  · rw [LEARN1SYNAPSE_simLearnPost_eq]
    rfl
  · rw [LEARN1SYNAPSE_simCode_eq]
  · rw [LEARN1SYNAPSE_simLearnPost_eq]

/-- The values derived by `pwSTDP` from a vector with at least nine entries. -/
theorem LEARN1SYNAPSE_derivedValues_eq {α : Type} [Field α]
    (p0 p1 p2 p3 p4 p5 p6 p7 p8 : α) (rest : List α) (dt : α) :
    LEARN1SYNAPSE.derivedValues (p0 :: p1 :: p2 :: p3 :: p4 :: p5 :: p6 :: p7 :: p8 :: rest) dt
      = some { lim0 := (1 / p4 + 1 / p1) * p0 / (2 / p1),
               lim1 := -((1 / p3 + 1 / p1) * p0 / (2 / p1)),
               slope0 := -2 * p5 / (p1 * p0),
               slope1 := -(-2 * p5 / (p1 * p0)),
               off0 := p5 / p4, off1 := p5 / p1, off2 := p5 / p3,
               gMax := p5, gMid := p6, gSlope := p7, tauShift := p8 } := by
  simp [LEARN1SYNAPSE.derivedValues, pwSTDP.calculateDerivedParameter, pwSTDP.lim0,
    pwSTDP.lim1, pwSTDP.slope0, pwSTDP.slope1, pwSTDP.off0, pwSTDP.off1, pwSTDP.off2]

/-- With ordered breakpoints `lim1 ≤ 0 ≤ lim0` and matching values at the two
outer breakpoints, the increment is a continuous function of the offset. -/
theorem LEARN1SYNAPSE_increment_continuous (v : LEARN1SYNAPSE.Values ℝ)
    (h1 : v.lim1 ≤ 0) (h0 : 0 ≤ v.lim0)
    (e0 : v.slope0 * v.lim0 + v.off1 = -v.off0)
    (e2 : v.slope1 * v.lim1 + v.off1 = -v.off2) :
    Continuous (LEARN1SYNAPSE.increment_spec v) := by
  have hform : LEARN1SYNAPSE.increment_spec v = fun x =>
      if x ≤ v.lim1 then -v.off2
      else if x ≤ 0 then v.slope1 * x + v.off1
      else if x ≤ v.lim0 then v.slope0 * x + v.off1
      else -v.off0 := by
    funext x
    unfold LEARN1SYNAPSE.increment_spec
    rcases le_or_lt x v.lim1 with a | a
    · have b : x ≤ 0 := le_trans a h1
      have c : x ≤ v.lim0 := le_trans b h0
      simp [a, not_lt.mpr a, not_lt.mpr b, not_lt.mpr c]
    · rcases le_or_lt x 0 with b | b
      · have c : x ≤ v.lim0 := le_trans b h0
        simp [a, b, not_le.mpr a, not_lt.mpr b, not_lt.mpr c]
      · rcases le_or_lt x v.lim0 with c | c
        · simp [b, c, not_le.mpr a, not_le.mpr b, not_lt.mpr c]
        · simp [c, not_le.mpr a, not_le.mpr b, not_le.mpr c]
  rw [hform]
  have hin2 : Continuous (fun x : ℝ =>
      if x ≤ v.lim0 then v.slope0 * x + v.off1 else -v.off0) := by
    refine Continuous.if_le ?_ continuous_const continuous_id continuous_const ?_
    · exact (continuous_const.mul continuous_id).add continuous_const
    · intro x hx
      simp only [id] at hx
      rw [hx, e0]
  have hin1 : Continuous (fun x : ℝ =>
      if x ≤ 0 then v.slope1 * x + v.off1
      else if x ≤ v.lim0 then v.slope0 * x + v.off1 else -v.off0) := by
    refine Continuous.if_le ?_ hin2 continuous_id continuous_const ?_
    · exact (continuous_const.mul continuous_id).add continuous_const
    · intro x hx
      simp only [id] at hx
      rw [hx, if_pos h0]
      simp
  refine Continuous.if_le continuous_const hin1 continuous_id continuous_const ?_
  intro x hx
  simp only [id] at hx
  rw [hx, if_pos h1, e2]

/-- The breakpoints derived from positive time constants have opposite signs. -/
theorem pwSTDP_lim_signs (p0 p1 p3 p4 : ℝ) (h0 : 0 < p0) (h1 : 0 < p1) (h3 : 0 < p3)
    (h4 : 0 < p4) :
    -((1 / p3 + 1 / p1) * p0 / (2 / p1)) < 0 ∧ 0 < (1 / p4 + 1 / p1) * p0 / (2 / p1) := by
  constructor
  · have : 0 < (1 / p3 + 1 / p1) * p0 / (2 / p1) := by positivity
    linarith
  · positivity

/-- C22, as the spec states it, fails: at the parameters
`[-1, 1, 0, 1, 2, 1, 0, 0, 0]`, where `p0, p1, p3, p4` are nonzero, the derived
values are `lim0 = -3/4`, `lim1 = 1`, and both identities hold; yet after a
postsynaptic spike at `t = 0` the raw weight is `-1` for `sT_pre = 3/4`
(offset `-3/4`) and `-1/2` for every `sT_pre < 3/4`, so it is not a continuous
function of the time offset. -/
theorem pwSTDP_increment_not_continuous :
    ∃ v : LEARN1SYNAPSE.Values ℝ,
      LEARN1SYNAPSE.derivedValues [-1, 1, 0, 1, 2, 1, 0, 0, 0] 1 = some v ∧
      v.lim0 = -(3 / 4) ∧ v.lim1 = 1 ∧
      v.slope0 * v.lim0 + v.off1 = -v.off0 ∧
      v.slope1 * v.lim1 + v.off1 = -v.off2 ∧
      (LEARN1SYNAPSE.simLearnPost Real.tanh v (3 / 4) 0 ⟨0, 0, 0, 0⟩).gRaw = -1 ∧
      (∀ sT_pre : ℝ, sT_pre < 3 / 4 →
        (LEARN1SYNAPSE.simLearnPost Real.tanh v sT_pre 0 ⟨0, 0, 0, 0⟩).gRaw = -(1 / 2)) ∧
      ¬ Continuous (fun sT_pre =>
        (LEARN1SYNAPSE.simLearnPost Real.tanh v sT_pre 0 ⟨0, 0, 0, 0⟩).gRaw) := by
  have hat : (LEARN1SYNAPSE.simLearnPost Real.tanh
      { lim0 := (1 / 2 + 1 / 1) * (-1) / (2 / 1),
        lim1 := -((1 / 1 + 1 / 1) * (-1) / (2 / 1)),
        slope0 := -2 * 1 / (1 * (-1)), slope1 := -(-2 * 1 / (1 * (-1))),
        off0 := 1 / 2, off1 := 1 / 1, off2 := 1 / 1,
        gMax := 1, gMid := 0, gSlope := 0, tauShift := 0 } (3 / 4) 0 ⟨0, 0, 0, 0⟩).gRaw
      = (-1 : ℝ) := by
    rw [LEARN1SYNAPSE_simLearnPost_eq]
    norm_num [LEARN1SYNAPSE.increment_spec]
  have hbelow : ∀ sT_pre : ℝ, sT_pre < 3 / 4 →
      (LEARN1SYNAPSE.simLearnPost Real.tanh
        { lim0 := (1 / 2 + 1 / 1) * (-1) / (2 / 1),
          lim1 := -((1 / 1 + 1 / 1) * (-1) / (2 / 1)),
          slope0 := -2 * 1 / (1 * (-1)), slope1 := -(-2 * 1 / (1 * (-1))),
          off0 := 1 / 2, off1 := 1 / 1, off2 := 1 / 1,
          gMax := 1, gMid := 0, gSlope := 0, tauShift := 0 } sT_pre 0 ⟨0, 0, 0, 0⟩).gRaw
        = (-(1 / 2) : ℝ) := by
    intro y hy
    rw [LEARN1SYNAPSE_simLearnPost_eq]
    have hc : (0 : ℝ) - y - 0 > (1 / 2 + 1 / 1) * (-1) / (2 / 1) := by
      norm_num
      linarith
    simp only [LEARN1SYNAPSE.increment_spec, if_pos hc]
    norm_num
  refine ⟨_, LEARN1SYNAPSE_derivedValues_eq (-1) 1 0 1 2 1 0 0 0 [] 1, by norm_num,
    by norm_num, by norm_num, by norm_num, hat, hbelow, ?_⟩
  intro hcont
  have hca := hcont.continuousAt (x := (3 / 4 : ℝ))
  rw [Metric.continuousAt_iff] at hca
  obtain ⟨δ, hδ, hclose⟩ := hca (1 / 4) (by norm_num)
  have hy : (3 / 4 : ℝ) - δ / 2 < 3 / 4 := by linarith
  have hd : dist ((3 / 4 : ℝ) - δ / 2) (3 / 4) < δ := by
    rw [Real.dist_eq]
    have : (3 / 4 : ℝ) - δ / 2 - 3 / 4 = -(δ / 2) := by ring
    rw [this, abs_neg, abs_of_pos (by linarith)]
    linarith
  have h := hclose hd
  rw [hbelow _ hy, hat, Real.dist_eq] at h
  have habs : |(-(1 / 2) : ℝ) - -1| = 1 / 2 := by
    rw [abs_of_pos (by norm_num)]
    norm_num
  rw [habs] at h
  norm_num at h

/-- C22, amended: over the reals, for a parameter vector with `p0, p1, p3, p4`
nonzero, the values derived by `pwSTDP` satisfy `slope0*lim0 + off1 = -off0`
and `slope1*lim1 + off1 = -off2`, and the two linear pieces both take the value
`off1` at offset 0.  When `p0, p1, p3, p4` are positive, so that the
breakpoints are ordered, the value of `gRaw` after a presynaptic spike is a
continuous function of `sT_post`, and after a postsynaptic spike of `sT_pre`. -/
theorem pwSTDP_increment_junctions (p0 p1 p2 p3 p4 p5 p6 p7 p8 : ℝ) (rest : List ℝ)
    (dt : ℝ) (h0 : p0 ≠ 0) (h1 : p1 ≠ 0) (_h3 : p3 ≠ 0) (_h4 : p4 ≠ 0) :
    ∃ v : LEARN1SYNAPSE.Values ℝ,
      LEARN1SYNAPSE.derivedValues
          (p0 :: p1 :: p2 :: p3 :: p4 :: p5 :: p6 :: p7 :: p8 :: rest) dt = some v ∧
      v.slope0 * v.lim0 + v.off1 = -v.off0 ∧
      v.slope1 * v.lim1 + v.off1 = -v.off2 ∧
      v.slope0 * 0 + v.off1 = v.off1 ∧
      v.slope1 * 0 + v.off1 = v.off1 ∧
      (0 < p0 → 0 < p1 → 0 < p3 → 0 < p4 →
        ∀ (t : ℝ) (s : LEARN1SYNAPSE.State ℝ),
          Continuous (fun sT_post =>
            (LEARN1SYNAPSE.simCode Real.tanh v sT_post t s).gRaw) ∧
          Continuous (fun sT_pre =>
            (LEARN1SYNAPSE.simLearnPost Real.tanh v sT_pre t s).gRaw)) := by
  have e0 : -2 * p5 / (p1 * p0) * ((1 / p4 + 1 / p1) * p0 / (2 / p1)) + p5 / p1
      = -(p5 / p4) := by
    by_cases h4 : p4 = 0
    · subst h4
      field_simp
      ring
    · field_simp
      ring
  have e2 : -(-2 * p5 / (p1 * p0)) * -((1 / p3 + 1 / p1) * p0 / (2 / p1)) + p5 / p1
      = -(p5 / p3) := by
    by_cases h3 : p3 = 0
    · subst h3
      field_simp
      ring
    · field_simp
      ring
  refine ⟨_, LEARN1SYNAPSE_derivedValues_eq p0 p1 p2 p3 p4 p5 p6 p7 p8 rest dt, e0, e2,
    by simp, by simp, ?_⟩
  intro q0 q1 q3 q4 t s
  obtain ⟨hl1, hl0⟩ := pwSTDP_lim_signs p0 p1 p3 p4 q0 q1 q3 q4
  have hc := LEARN1SYNAPSE_increment_continuous
    { lim0 := (1 / p4 + 1 / p1) * p0 / (2 / p1),
      lim1 := -((1 / p3 + 1 / p1) * p0 / (2 / p1)),
      slope0 := -2 * p5 / (p1 * p0),
      slope1 := -(-2 * p5 / (p1 * p0)),
      off0 := p5 / p4, off1 := p5 / p1, off2 := p5 / p3,
      gMax := p5, gMid := p6, gSlope := p7, tauShift := p8 }
    (le_of_lt hl1) (le_of_lt hl0) e0 e2
  constructor
  · simp only [LEARN1SYNAPSE_simCode_eq]
    exact continuous_const.add
      (hc.comp ((continuous_id.sub continuous_const).sub continuous_const))
  · simp only [LEARN1SYNAPSE_simLearnPost_eq]
    exact continuous_const.add
      (hc.comp ((continuous_const.sub continuous_id).sub continuous_const))

/-- C22, amended, at the parameters `[10,5,20,8,8,1.0,0.5,4.0,0,0]` of the
spec's example: the identities hold and the raw weight is continuous in the
spike times. -/
theorem pwSTDP_increment_junctions_witness :
    ∃ v : LEARN1SYNAPSE.Values ℝ,
      LEARN1SYNAPSE.derivedValues [10, 5, 20, 8, 8, 1, 1 / 2, 4, 0, 0] 1 = some v ∧
      v.slope0 * v.lim0 + v.off1 = -v.off0 ∧
      v.slope1 * v.lim1 + v.off1 = -v.off2 ∧
      v.slope0 * 0 + v.off1 = v.off1 ∧
      v.slope1 * 0 + v.off1 = v.off1 ∧
      (∀ (t : ℝ) (s : LEARN1SYNAPSE.State ℝ),
        Continuous (fun sT_post =>
          (LEARN1SYNAPSE.simCode Real.tanh v sT_post t s).gRaw) ∧
        Continuous (fun sT_pre =>
          (LEARN1SYNAPSE.simLearnPost Real.tanh v sT_pre t s).gRaw)) := by
  obtain ⟨v, hv, a, b, c, d, hcont⟩ :=
    pwSTDP_increment_junctions 10 5 20 8 8 1 (1 / 2) 4 0 [0] 1 (by norm_num) (by norm_num)
      (by norm_num) (by norm_num)
  exact ⟨v, hv, a, b, c, d,
    hcont (by norm_num) (by norm_num) (by norm_num) (by norm_num)⟩

/-- C23: over the reals, for a parameter vector with `p0, p1, p3, p4` positive,
the derived limits satisfy `lim1 < 0 < lim0`; the four intervals cut out by the
tests `x > lim0`, `x > 0`, `x > lim1` are non-empty, and on each of them the
update code applies its own piece; if moreover `p5 > 0` then
`slope0 < 0 < slope1`. -/
theorem pwSTDP_limits_ordered (p0 p1 p2 p3 p4 p5 p6 p7 p8 : ℝ) (rest : List ℝ) (dt : ℝ)
    (h0 : 0 < p0) (h1 : 0 < p1) (h3 : 0 < p3) (h4 : 0 < p4) :
    ∃ v : LEARN1SYNAPSE.Values ℝ,
      LEARN1SYNAPSE.derivedValues
          (p0 :: p1 :: p2 :: p3 :: p4 :: p5 :: p6 :: p7 :: p8 :: rest) dt = some v ∧
      pwSTDP.calculateDerivedParameter 0
          (p0 :: p1 :: p2 :: p3 :: p4 :: p5 :: p6 :: p7 :: p8 :: rest) dt = some v.lim0 ∧
      pwSTDP.calculateDerivedParameter 1
          (p0 :: p1 :: p2 :: p3 :: p4 :: p5 :: p6 :: p7 :: p8 :: rest) dt = some v.lim1 ∧
      pwSTDP.calculateDerivedParameter 2
          (p0 :: p1 :: p2 :: p3 :: p4 :: p5 :: p6 :: p7 :: p8 :: rest) dt = some v.slope0 ∧
      pwSTDP.calculateDerivedParameter 3
          (p0 :: p1 :: p2 :: p3 :: p4 :: p5 :: p6 :: p7 :: p8 :: rest) dt = some v.slope1 ∧
      v.lim1 < 0 ∧ 0 < v.lim0 ∧
      (∃ x1 x2 x3 x4 : ℝ,
        x1 ≤ v.lim1 ∧ (v.lim1 < x2 ∧ x2 ≤ 0) ∧ (0 < x3 ∧ x3 ≤ v.lim0) ∧ v.lim0 < x4) ∧
      (∀ (x : ℝ) (s : LEARN1SYNAPSE.State ℝ),
        (x ≤ v.lim1 →
          (LEARN1SYNAPSE.simLearnPost Real.tanh v 0 (x + v.tauShift) s).gRaw
            = s.gRaw + -v.off2) ∧
        (v.lim1 < x → x ≤ 0 →
          (LEARN1SYNAPSE.simLearnPost Real.tanh v 0 (x + v.tauShift) s).gRaw
            = s.gRaw + (v.slope1 * x + v.off1)) ∧
        (0 < x → x ≤ v.lim0 →
          (LEARN1SYNAPSE.simLearnPost Real.tanh v 0 (x + v.tauShift) s).gRaw
            = s.gRaw + (v.slope0 * x + v.off1)) ∧
        (v.lim0 < x →
          (LEARN1SYNAPSE.simLearnPost Real.tanh v 0 (x + v.tauShift) s).gRaw
            = s.gRaw + -v.off0)) ∧
      (0 < p5 → v.slope0 < 0 ∧ 0 < v.slope1) := by
  obtain ⟨hl1, hl0⟩ := pwSTDP_lim_signs p0 p1 p3 p4 h0 h1 h3 h4
  refine ⟨_, LEARN1SYNAPSE_derivedValues_eq p0 p1 p2 p3 p4 p5 p6 p7 p8 rest dt, ?_, ?_, ?_, ?_,
    hl1, hl0, ?_, ?_, ?_⟩
  · simp [pwSTDP.calculateDerivedParameter, pwSTDP.lim0]
  · simp [pwSTDP.calculateDerivedParameter, pwSTDP.lim1]
  · simp [pwSTDP.calculateDerivedParameter, pwSTDP.slope0]
  · simp [pwSTDP.calculateDerivedParameter, pwSTDP.slope1, pwSTDP.slope0]
  · exact ⟨_, 0, _, _ + 1, le_refl _, ⟨hl1, le_refl _⟩, ⟨hl0, le_refl _⟩, lt_add_one _⟩
  · intro x s
    have hx : x + p8 - 0 - p8 = x := by ring
    simp only [LEARN1SYNAPSE_simLearnPost_eq, hx]
    refine ⟨?_, ?_, ?_, ?_⟩
    · intro a
      have b : x ≤ 0 := le_trans a (le_of_lt hl1)
      have c : x ≤ (1 / p4 + 1 / p1) * p0 / (2 / p1) := le_trans b (le_of_lt hl0)
      simp only [LEARN1SYNAPSE.increment_spec, gt_iff_lt, if_neg (not_lt.mpr c),
        if_neg (fun h : 0 < x ∧ x ≤ (1 / p4 + 1 / p1) * p0 / (2 / p1) =>
          not_lt.mpr b h.1),
        if_neg (fun h : -((1 / p3 + 1 / p1) * p0 / (2 / p1)) < x ∧ x ≤ 0 =>
          not_lt.mpr a h.1)]
    · intro a b
      have c : x ≤ (1 / p4 + 1 / p1) * p0 / (2 / p1) := le_trans b (le_of_lt hl0)
      simp only [LEARN1SYNAPSE.increment_spec, gt_iff_lt, if_neg (not_lt.mpr c),
        if_neg (fun h : 0 < x ∧ x ≤ (1 / p4 + 1 / p1) * p0 / (2 / p1) =>
          not_lt.mpr b h.1), if_pos (And.intro a b)]
    · intro b c
      simp only [LEARN1SYNAPSE.increment_spec, gt_iff_lt, if_neg (not_lt.mpr c),
        if_pos (And.intro b c)]
    · intro c
      simp only [LEARN1SYNAPSE.increment_spec, gt_iff_lt, if_pos c]
  · intro h5
    have hpos : 0 < 2 * p5 / (p1 * p0) := by positivity
    constructor
    · have e : -2 * p5 / (p1 * p0) = -(2 * p5 / (p1 * p0)) := by ring
      show -2 * p5 / (p1 * p0) < 0
      rw [e]
      linarith
    · have e : -(-2 * p5 / (p1 * p0)) = 2 * p5 / (p1 * p0) := by ring
      show 0 < -(-2 * p5 / (p1 * p0))
      rw [e]
      exact hpos

/-- C23 at the parameters `[10,5,20,8,8,1.0,0.5,4.0,0,0]` of the spec's example:
the derived limits are `lim1 = -8.125 < 0 < 8.125 = lim0`. -/
theorem pwSTDP_limits_ordered_witness :
    ∃ v : LEARN1SYNAPSE.Values ℝ,
      LEARN1SYNAPSE.derivedValues [10, 5, 20, 8, 8, 1, 1 / 2, 4, 0, 0] 1 = some v ∧
      v.lim1 < 0 ∧ 0 < v.lim0 ∧ ((0 : ℝ) < 1 → v.slope0 < 0 ∧ 0 < v.slope1) := by
  obtain ⟨v, hv, -, -, -, -, a, b, -, -, c⟩ :=
    pwSTDP_limits_ordered 10 5 20 8 8 1 (1 / 2) 4 0 [0] 1 (by norm_num) (by norm_num)
      (by norm_num) (by norm_num)
  exact ⟨v, hv, a, b, c⟩

/-! ## Reads of the parameter vector and influence of `dt` -/

theorem rulkovdp_isSome {α : Type} [Field α] (index : Int) (pars : List α) (dt : α)
    (h : 3 ≤ pars.length) : (rulkovdp.calculateDerivedParameter index pars dt).isSome := by
  match pars, h with
  | a :: b :: c :: rest, _ =>
    simp only [rulkovdp.calculateDerivedParameter, rulkovdp.ip0, rulkovdp.ip1, rulkovdp.ip2]
    split_ifs <;> simp

theorem expDecayDp_isSome {α : Type} [Field α] (exp : α → α) (index : Int) (pars : List α)
    (dt : α) (h : 1 ≤ pars.length) :
    (expDecayDp.calculateDerivedParameter exp index pars dt).isSome := by
  match pars, h with
  | a :: rest, _ =>
    simp only [expDecayDp.calculateDerivedParameter, expDecayDp.expDecay]
    split_ifs <;> simp

theorem pwSTDP_isSome {α : Type} [Field α] (index : Int) (pars : List α) (dt : α)
    (h : 6 ≤ pars.length) : (pwSTDP.calculateDerivedParameter index pars dt).isSome := by
  match pars, h with
  | p0 :: p1 :: p2 :: p3 :: p4 :: p5 :: rest, _ =>
    simp only [pwSTDP.calculateDerivedParameter, pwSTDP.lim0, pwSTDP.lim1, pwSTDP.slope0,
      pwSTDP.slope1, pwSTDP.off0, pwSTDP.off1, pwSTDP.off2]
    split_ifs <;> simp

/-- C24: the records under `MAPNEURON`, `EXPDECAY` and `LEARN1SYNAPSE` carry
`rulkovdp`, `expDecayDp` and `pwSTDP` with 4, 2 and 10 parameter names.
`rulkovdp` returns a value on every vector with at least 3 entries,
`expDecayDp` with at least 1 and `pwSTDP` with at least 6, and the result of
`pwSTDP` does not change with the entry at position 2 or the entries from
position 6 on; a vector that is too short does make the read fail.  Hence for
every record of the three standard catalogs that carries a strategy, every
index in the range of its derived-parameter names and every parameter vector
with as many entries as the record has parameter names, the call returns a
value: no read is out of bounds. -/
theorem calculateDerivedParameter_reads_in_bounds {α : Type} [Field α] (exp : α → α)
    (dt : α) :
    (∀ (g : vector neuronModel) (d : Option dpclass) (e : List neuronModel),
      ((prepareStandardModels g d e).nModels[(prepareStandardModels g d e).MAPNEURON]?).map
          (fun r => (r.dps, r.pNames.size)) = some (some dpclass.rulkovdp, 4)) ∧
    (∀ (g : vector postSynModel) (d : Option dpclass) (e : List postSynModel),
      ((preparePostSynModels g d e).postSynModels[(preparePostSynModels g d e).EXPDECAY]?).map
          (fun r => (r.dps, r.pNames.size)) = some (some dpclass.expDecayDp, 2)) ∧
    (∀ (g : vector weightUpdateModel) (d : Option dpclass) (x y : Bool)
        (e : List weightUpdateModel),
      ((prepareWeightUpdateModels g d x y e).weightUpdateModels[
          (prepareWeightUpdateModels g d x y e).LEARN1SYNAPSE]?).map
          (fun r => (r.dps, r.pNames.size)) = some (some dpclass.pwSTDP, 10)) ∧
    (∀ (index : Int) (pars : List α), 3 ≤ pars.length →
      (rulkovdp.calculateDerivedParameter index pars dt).isSome) ∧
    (∀ (index : Int) (pars : List α), 1 ≤ pars.length →
      (expDecayDp.calculateDerivedParameter exp index pars dt).isSome) ∧
    (∀ (index : Int) (pars : List α), 6 ≤ pars.length →
      (pwSTDP.calculateDerivedParameter index pars dt).isSome) ∧
    (∀ (index : Int) (p0 p1 p2 p2' p3 p4 p5 : α) (rest rest' : List α),
      pwSTDP.calculateDerivedParameter index (p0 :: p1 :: p2 :: p3 :: p4 :: p5 :: rest) dt
        = pwSTDP.calculateDerivedParameter index
            (p0 :: p1 :: p2' :: p3 :: p4 :: p5 :: rest') dt) ∧
    (∀ a b : α, rulkovdp.calculateDerivedParameter 2 [a, b] dt = none) ∧
    expDecayDp.calculateDerivedParameter exp 0 [] dt = none ∧
    (∀ p0 p1 p2 p3 p4 : α,
      pwSTDP.calculateDerivedParameter 2 [p0, p1, p2, p3, p4] dt = none) ∧
    (∀ (d : Option dpclass) (r : neuronModel), r ∈ (prepareStandardModels [] d []).nModels →
      ∀ s, r.dps = some s → ∀ index : Int, 0 ≤ index → index < r.dpNames.size →
      ∀ pars : List α, pars.length = r.pNames.size →
        (s.calculateDerivedParameter exp index pars dt).isSome) ∧
    (∀ (d : Option dpclass) (r : postSynModel),
      r ∈ (preparePostSynModels [] d []).postSynModels →
      ∀ s, r.dps = some s → ∀ index : Int, 0 ≤ index → index < r.dpNames.size →
      ∀ pars : List α, pars.length = r.pNames.size →
        (s.calculateDerivedParameter exp index pars dt).isSome) ∧
    (∀ (d : Option dpclass) (x y : Bool) (r : weightUpdateModel),
      r ∈ (prepareWeightUpdateModels [] d x y []).weightUpdateModels →
      ∀ s, r.dps = some s → ∀ index : Int, 0 ≤ index → index < r.dpNames.size →
      ∀ pars : List α, pars.length = r.pNames.size →
        (s.calculateDerivedParameter exp index pars dt).isSome) := by
  refine ⟨?_, ?_, ?_, ?_, ?_, ?_, ?_, ?_, ?_, ?_, ?_, ?_, ?_⟩
  · intro g d e
    rw [prepareStandardModels_MAPNEURON, prepareStandardModels_getElem? g d e 0 (by decide)]
    rfl
  · intro g d e
    rw [preparePostSynModels_EXPDECAY, preparePostSynModels_getElem? g d e 0 (by decide)]
    rfl
  · intro g d x y e
    rw [prepareWeightUpdateModels_LEARN1SYNAPSE,
      prepareWeightUpdateModels_getElem? g d x y e 2 (by decide)]
    rfl
  · intro index pars h
    exact rulkovdp_isSome index pars dt h
  · intro index pars h
    exact expDecayDp_isSome exp index pars dt h
  · intro index pars h
    exact pwSTDP_isSome index pars dt h
  · intro index p0 p1 p2 p2' p3 p4 p5 rest rest'
    simp only [pwSTDP.calculateDerivedParameter, pwSTDP.lim0, pwSTDP.lim1, pwSTDP.slope0,
      pwSTDP.slope1, pwSTDP.off0, pwSTDP.off1, pwSTDP.off2]
    split_ifs <;> simp
  · intro a b
    simp [rulkovdp.calculateDerivedParameter, rulkovdp.ip2]
  · simp [expDecayDp.calculateDerivedParameter, expDecayDp.expDecay]
  · intro p0 p1 p2 p3 p4
    simp [pwSTDP.calculateDerivedParameter, pwSTDP.slope0]
  · intro d r hr s hs index h0 h1 pars hlen
    simp only [prepareStandardModels, extra_neurons, vector.push_back, vector.size,
      vector.clear, Id.run, List.foldl, List.nil_append, List.cons_append, List.mem_cons,
      List.mem_singleton, List.not_mem_nil, or_false, pure, bind] at hr
    rcases hr with rfl | rfl | rfl | rfl | rfl | rfl | rfl | rfl | rfl
    · have hs' : s = dpclass.rulkovdp := by
        simpa using hs.symm
      subst hs'
      have hl : 3 ≤ pars.length := by
        rw [hlen]; decide
      exact rulkovdp_isSome index pars dt hl
    all_goals
      simp [vector.size] at h1
      omega
  · intro d r hr s hs index h0 h1 pars hlen
    simp only [preparePostSynModels, extra_postsynapses, vector.push_back, vector.size,
      vector.clear, Id.run, List.foldl, List.nil_append, List.cons_append, List.mem_cons,
      List.mem_singleton, List.not_mem_nil, or_false, pure, bind] at hr
    rcases hr with rfl | rfl
    · have hs' : s = dpclass.expDecayDp := by
        simpa using hs.symm
      subst hs'
      have hl : 1 ≤ pars.length := by
        rw [hlen]; decide
      exact expDecayDp_isSome exp index pars dt hl
    · simp [vector.size] at h1
      omega
  · intro d x y r hr s hs index h0 h1 pars hlen
    simp only [prepareWeightUpdateModels, extra_weightupdates, vector.push_back, vector.size,
      vector.clear, Id.run, List.foldl, List.nil_append, List.cons_append, List.mem_cons,
      List.mem_singleton, List.not_mem_nil, or_false, pure, bind] at hr
    rcases hr with rfl | rfl | rfl
    · simp [vector.size] at h1
      omega
    · simp [vector.size] at h1
      omega
    · have hs' : s = dpclass.pwSTDP := by
        simpa using hs.symm
      subst hs'
      have hl : 6 ≤ pars.length := by
        rw [hlen]; decide
      exact pwSTDP_isSome index pars dt hl

/-- C25: `rulkovdp` and `pwSTDP` return the same result for any two values of
`dt`, whatever the index and the parameter vector; the result of `expDecayDp`
is the same on two parameter vectors with the same entry 0 (or both empty);
and over the reals `dt` does change the result of `expDecayDp`. -/
theorem dt_influences_only_expDecayDp {α : Type} [Field α] (exp : α → α) (index : Int)
    (pars pars' : List α) (dt dt' : α) (h : pars[0]? = pars'[0]?) :
    rulkovdp.calculateDerivedParameter index pars dt
      = rulkovdp.calculateDerivedParameter index pars dt' ∧
    pwSTDP.calculateDerivedParameter index pars dt
      = pwSTDP.calculateDerivedParameter index pars dt' ∧
    expDecayDp.calculateDerivedParameter exp index pars dt
      = expDecayDp.calculateDerivedParameter exp index pars' dt ∧
    expDecayDp.calculateDerivedParameter Real.exp 0 [10, 0] 1
      ≠ expDecayDp.calculateDerivedParameter Real.exp 0 [10, 0] 2 := by
  refine ⟨rfl, rfl, ?_, ?_⟩
  · simp only [expDecayDp.calculateDerivedParameter, expDecayDp.expDecay, h]
  · simp [expDecayDp.calculateDerivedParameter, expDecayDp.expDecay]
    norm_num

/-- C25 at `tau = 10` with the second parameter changed from 0 to 7. -/
theorem dt_influences_only_expDecayDp_witness :
    expDecayDp.calculateDerivedParameter Real.exp 0 [10, 0] 1
      = expDecayDp.calculateDerivedParameter Real.exp 0 [10, 7] 1 :=
  (dt_influences_only_expDecayDp Real.exp 0 [10, 0] [10, 7] 1 1 rfl).2.2.1

/-! ## Bounds on the decay factor and on the effective weight -/

/-- The hyperbolic tangent lies strictly between -1 and 1. -/
theorem tanh_bounds (x : ℝ) : -1 < Real.tanh x ∧ Real.tanh x < 1 := by
  have hc : 0 < Real.cosh x := Real.cosh_pos x
  have h1 : Real.sinh x < Real.cosh x := Real.sinh_lt_cosh x
  have h2 : -Real.cosh x < Real.sinh x := by
    have h := Real.exp_pos x
    rw [← Real.cosh_add_sinh] at h
    linarith
  rw [Real.tanh_eq_sinh_div_cosh]
  constructor
  · rw [lt_div_iff₀ hc]
    linarith
  · rw [div_lt_iff₀ hc]
    linarith

/-- C26: over the reals, for `tau > 0` and `dt > 0`, the derived parameter
`expDecay = exp(-dt/tau)` computed by `expDecayDp` lies strictly between 0 and
1; the decay code of the record under `EXPDECAY` is `$(inSyn)*=$(expDecay);`,
and this step keeps the sign of `inSyn` and strictly decreases its magnitude
whenever `inSyn` is nonzero. -/
theorem expDecay_contracts (tau dt : ℝ) (rest : List ℝ) (htau : 0 < tau) (hdt : 0 < dt) :
    ∃ e : ℝ,
      expDecayDp.calculateDerivedParameter Real.exp 0 (tau :: rest) dt = some e ∧
      e = Real.exp (-dt / tau) ∧ 0 < e ∧ e < 1 ∧
      (∀ (g : vector postSynModel) (d : Option dpclass) (x : List postSynModel),
        ((preparePostSynModels g d x).postSynModels[
            (preparePostSynModels g d x).EXPDECAY]?).map (fun r => r.postSynDecay)
          = some "$(inSyn)*=$(expDecay);\n") ∧
      (∀ inSyn : ℝ,
        (0 < inSyn → 0 < EXPDECAY.postSynDecay e inSyn ∧
          EXPDECAY.postSynDecay e inSyn < inSyn) ∧
        (inSyn < 0 → inSyn < EXPDECAY.postSynDecay e inSyn ∧
          EXPDECAY.postSynDecay e inSyn < 0) ∧
        (inSyn ≠ 0 → |EXPDECAY.postSynDecay e inSyn| < |inSyn|)) := by
  have hneg : -dt / tau < 0 := by
    have : 0 < dt / tau := div_pos hdt htau
    rw [neg_div]
    linarith
  have he0 : 0 < Real.exp (-dt / tau) := Real.exp_pos _
  have he1 : Real.exp (-dt / tau) < 1 := Real.exp_lt_one_iff.mpr hneg
  refine ⟨Real.exp (-dt / tau), ?_, rfl, he0, he1, ?_, ?_⟩
  · simp [expDecayDp.calculateDerivedParameter, expDecayDp.expDecay]
  · intro g d x
    rw [preparePostSynModels_EXPDECAY, preparePostSynModels_getElem? g d x 0 (by decide)]
    rfl
  · intro inSyn
    simp only [EXPDECAY.postSynDecay]
    refine ⟨?_, ?_, ?_⟩
    · intro h
      exact ⟨mul_pos h he0, by nlinarith⟩
    · intro h
      exact ⟨by nlinarith, by nlinarith⟩
    · intro h
      have habs : 0 < |inSyn| := abs_pos.mpr h
      rw [abs_mul, abs_of_pos he0]
      nlinarith

/-- C26 at `tau = 10`, `dt = 1`. -/
theorem expDecay_contracts_witness :
    ∃ e : ℝ,
      expDecayDp.calculateDerivedParameter Real.exp 0 [10, 0] 1 = some e ∧
      0 < e ∧ e < 1 ∧
      (∀ inSyn : ℝ, inSyn ≠ 0 → |EXPDECAY.postSynDecay e inSyn| < |inSyn|) := by
  obtain ⟨e, h1, -, h2, h3, -, h4⟩ :=
    expDecay_contracts 10 1 [0] (by norm_num) (by norm_num)
  exact ⟨e, h1, h2, h3, fun x hx => (h4 x).2.2 hx⟩

/-- C27: over the reals, for `gMax > 0` and all other values, states and spike
times, the weight `g` left by the presynaptic code and by the postsynaptic
code of the STDP synapse lies strictly between 0 and `gMax`. -/
theorem LEARN1SYNAPSE_weight_bounds (v : LEARN1SYNAPSE.Values ℝ) (sT_post sT_pre t : ℝ)
    (s : LEARN1SYNAPSE.State ℝ) (hg : 0 < v.gMax) :
    (0 < (LEARN1SYNAPSE.simCode Real.tanh v sT_post t s).g ∧
      (LEARN1SYNAPSE.simCode Real.tanh v sT_post t s).g < v.gMax) ∧
    (0 < (LEARN1SYNAPSE.simLearnPost Real.tanh v sT_pre t s).g ∧
      (LEARN1SYNAPSE.simLearnPost Real.tanh v sT_pre t s).g < v.gMax) ∧
    (∀ gRaw : ℝ, 0 < v.gMax / 2 * (Real.tanh (v.gSlope * (gRaw - v.gMid)) + 1) ∧
      v.gMax / 2 * (Real.tanh (v.gSlope * (gRaw - v.gMid)) + 1) < v.gMax) := by
  have key : ∀ gRaw : ℝ, 0 < v.gMax / 2 * (Real.tanh (v.gSlope * (gRaw - v.gMid)) + 1) ∧
      v.gMax / 2 * (Real.tanh (v.gSlope * (gRaw - v.gMid)) + 1) < v.gMax := by
    intro gRaw
    obtain ⟨a, b⟩ := tanh_bounds (v.gSlope * (gRaw - v.gMid))
    have hh : 0 < v.gMax / 2 := by linarith
    constructor
    · exact mul_pos hh (by linarith)
    · nlinarith
  refine ⟨?_, ?_, key⟩
  · rw [LEARN1SYNAPSE_simCode_eq]
    exact key _
  · rw [LEARN1SYNAPSE_simLearnPost_eq]
    exact key _

/-- C27 at `gMax = 1`, `gMid = 1/2`, `gSlope = 4`, from the state with `g = 0`
and `gRaw = 0`. -/
theorem LEARN1SYNAPSE_weight_bounds_witness :
    (0 < (LEARN1SYNAPSE.simCode Real.tanh ⟨1, -1, -1, 1, 1, 1, 1, 1, 1 / 2, 4, 0⟩ 0 0
        ⟨0, 0, 0, 0⟩).g ∧
      (LEARN1SYNAPSE.simCode Real.tanh ⟨1, -1, -1, 1, 1, 1, 1, 1, 1 / 2, 4, 0⟩ 0 0
        ⟨0, 0, 0, 0⟩).g < 1) :=
  (LEARN1SYNAPSE_weight_bounds ⟨1, -1, -1, 1, 1, 1, 1, 1, 1 / 2, 4, 0⟩ 0 0 0 ⟨0, 0, 0, 0⟩
    (by norm_num)).1

end GeNN
